import Mathlib

/-
Verification development for the tennis-video-analysis pipeline
(court-relative projection, shot detection, statistics aggregation).

The Python source is shallowly embedded over exact rationals; Euclidean
distances (Python x ** 0.5 on a nonnegative float) are embedded as
Real.sqrt.  Fallible Python operations (list indexing, dict lookup,
min/max of an empty sequence, dynamically ill-typed operations) are
embedded in the Except monad with an explicit error universe.
-/

namespace TennisAnalysis

/-- Python runtime error kinds raised by the embedded code paths. -/
inductive PyErr where
  | typeError
  | keyError
  | indexError
  | valueError
deriving DecidableEq, Repr

deriving instance DecidableEq for Except

/-- A detector bounding box: coordinates x1, y1, x2, y2 in original-frame pixels. -/
structure Box where
  x1 : ℚ
  y1 : ℚ
  x2 : ℚ
  y2 : ℚ
deriving DecidableEq, Repr

/-- A 2-D pixel point. -/
abbrev Point := ℚ × ℚ

/-- A Python dict with integer track-id keys, kept in insertion order. -/
abbrev Dict (α : Type) := List (ℕ × α)

/-- Python int() on a (nonnegative or negative) rational: truncation toward zero. -/
def pyInt (q : ℚ) : ℚ := if q < 0 then (⌈q⌉ : ℚ) else (⌊q⌋ : ℚ)

/-- Python list indexing with a nonnegative index; out of range raises IndexError. -/
def pyGet {α : Type} (l : List α) (i : ℕ) : Except PyErr α :=
  match l[i]? with
  | some a => Except.ok a
  | none => Except.error PyErr.indexError

/-- Python dict lookup d[k]; a missing key raises KeyError. -/
def dictGet {α : Type} (d : Dict α) (k : ℕ) : Except PyErr α :=
  match d.find? (fun e => e.1 = k) with
  | some e => Except.ok e.2
  | none => Except.error PyErr.keyError

/-- Python min(l) over comparables; an empty sequence raises ValueError. -/
def pyListMax (l : List ℚ) : Except PyErr ℚ :=
  match l with
  | [] => Except.error PyErr.valueError
  | x :: xs => Except.ok (xs.foldl (fun acc v => if acc < v then v else acc) x)

/-- Python min(keys, key=f): first element attaining the minimal key value
(iteration keeps the incumbent unless a strictly smaller key appears).
An empty sequence raises ValueError. -/
def pyMinBy {α : Type} {β : Type} [LT β] [DecidableRel (· < · : β → β → Prop)]
    (l : List α) (f : α → β) : Except PyErr α :=
  match l with
  | [] => Except.error PyErr.valueError
  | x :: xs => Except.ok (xs.foldl (fun best v => if f v < f best then v else best) x)

/- ## utils/bbox_utils.py -/

/-- Source get_center_of_bbox: center of a bounding box, both coordinates
truncated with int(). -/
def get_center_of_bbox (bbox : Box) : Point :=
  (pyInt ((bbox.x1 + bbox.x2) / 2), pyInt ((bbox.y1 + bbox.y2) / 2))

/-- Source measure_distance: Euclidean distance, (dx ** 2 + dy ** 2) ** 0.5.
The Python expression x ** 0.5 on a nonnegative float is the square root. -/
noncomputable def measure_distance (p1 p2 : Point) : ℝ :=
  Real.sqrt ((((p1.1 - p2.1) : ℚ) : ℝ) ^ 2 + (((p1.2 - p2.2) : ℚ) : ℝ) ^ 2)

/-- Source get_foot_position: bottom-center of a bounding box. -/
def get_foot_position (bbox : Box) : Point :=
  (pyInt ((bbox.x1 + bbox.x2) / 2), bbox.y2)

/-- Source get_height_of_bbox: bbox.y2 - bbox.y1. -/
def get_height_of_bbox (bbox : Box) : ℚ :=
  bbox.y2 - bbox.y1

/-- Source measure_xy_distance on well-typed 2-D points:
(abs(x1-x2), abs(y1-y2)). -/
def measure_xy_distance (p1 p2 : Point) : Point :=
  (|p1.1 - p2.1|, |p1.2 - p2.2|)

/-- Source get_closest_keypoint_index: among the candidate keypoint indices,
the first one whose vertical coordinate is strictly closest to the point.
Indexes the flat keypoint list, so a too-short list raises IndexError;
an empty candidate list raises IndexError (keypoint_indices[0]). -/
def get_closest_keypoint_index (point : Point) (keypoints : List ℚ)
    (keypoint_indices : List ℕ) : Except PyErr ℕ := do
  match keypoint_indices with
  | [] => Except.error PyErr.indexError
  | c0 :: _ =>
    let step : (WithTop ℚ × ℕ) → ℕ → Except PyErr (WithTop ℚ × ℕ) :=
      fun acc keypoint_indix => do
        let ky ← pyGet keypoints (keypoint_indix * 2 + 1)
        let distance : ℚ := |point.2 - ky|
        if (distance : WithTop ℚ) < acc.1 then
          pure ((distance : WithTop ℚ), keypoint_indix)
        else
          pure acc
    let r ← keypoint_indices.foldlM step ((⊤ : WithTop ℚ), c0)
    pure r.2

/- ## utils/conversions.py -/

/-- Source convert_pixel_distance_to_meters, generic in the number field so it
serves both the exact-rational mapper and the real-valued speed computation. -/
def convert_pixel_distance_to_meters {α : Type} [DivisionRing α]
    (pixel_distance refrence_height_in_meters refrence_height_in_pixels : α) : α :=
  pixel_distance * refrence_height_in_meters / refrence_height_in_pixels

/-- Source convert_meters_to_pixel_distance. -/
def convert_meters_to_pixel_distance {α : Type} [DivisionRing α]
    (meters refrence_height_in_meters refrence_height_in_pixels : α) : α :=
  meters * refrence_height_in_pixels / refrence_height_in_meters

/- ## constants module -/

namespace constants

/-- Modelled from the spec: the real-world court constants module is not among
the provided source files.  The double-line width 10.97 m is pinned by the
spec (sections 4.6 and 8); the remaining values are the standard tennis-court
measurements the spec lists in section 6 as fixed configuration. -/
def DOUBLE_LINE_WIDTH : ℚ := 10.97

/-- Modelled from the spec: half-court line height (m), fixed configuration. -/
def HALF_COURT_LINE_HEIGHT : ℚ := 11.88

/-- Modelled from the spec: singles line width (m), fixed configuration. -/
def SINGLE_LINE_WIDTH : ℚ := 8.23

/-- Modelled from the spec: doubles-alley width (m), fixed configuration. -/
def DOUBLE_ALLY_DIFFERENCE : ℚ := 1.37

/-- Modelled from the spec: no-mans-land depth (m), fixed configuration. -/
def NO_MANS_LAND_HEIGHT : ℚ := 5.48

/-- Modelled from the spec: player 1 real-world height (m), fixed configuration. -/
def PLAYER_1_HEIGHT_METERS : ℚ := 1.88

/-- Modelled from the spec: player 2 real-world height (m), fixed configuration. -/
def PLAYER_2_HEIGHT_METERS : ℚ := 1.91

end constants

/- ## mini_court/mini_court.py : geometry -/

/-- The MiniCourt object state after __init__: canvas box, court rectangle,
and the 28 flat drawing keypoint coordinates. -/
structure MiniCourt where
  start_x : ℚ
  start_y : ℚ
  end_x : ℚ
  end_y : ℚ
  court_start_x : ℚ
  court_start_y : ℚ
  court_end_x : ℚ
  court_end_y : ℚ
  court_drawing_width : ℚ
  drawing_key_points : List ℚ
deriving DecidableEq, Repr

/-- Source MiniCourt.convert_meters_to_pixels: scale by the mini-court ratio
(court drawing width per double-line width). -/
def MiniCourt.convert_meters_to_pixels (court_drawing_width meters : ℚ) : ℚ :=
  convert_meters_to_pixel_distance meters constants.DOUBLE_LINE_WIDTH court_drawing_width

/-- Source MiniCourt.__init__ composed of set_canvas_background_box_position,
set_mini_court_position and set_court_drawing_key_points, for a frame of the
given pixel width (the frame height is not used by the source).  Drawing
constants: rectangle 250 x 500, buffer 50, padding 20. -/
def MiniCourt.build (frame_width : ℚ) : MiniCourt :=
  let drawing_rectangle_width : ℚ := 250
  let drawing_rectangle_height : ℚ := 500
  let buffer : ℚ := 50
  let padding_court : ℚ := 20
  let end_x := frame_width - buffer
  let end_y := buffer + drawing_rectangle_height
  let start_x := end_x - drawing_rectangle_width
  let start_y := end_y - drawing_rectangle_height
  let court_start_x := start_x + padding_court
  let court_start_y := start_y + padding_court
  let court_end_x := end_x - padding_court
  let court_end_y := end_y - padding_court
  let court_drawing_width := court_end_x - court_start_x
  let m2p := MiniCourt.convert_meters_to_pixels court_drawing_width
  let p0x := pyInt court_start_x
  let p0y := pyInt court_start_y
  let p1x := pyInt court_end_x
  let p1y := pyInt court_start_y
  let p2x := pyInt court_start_x
  let p2y := court_start_y + m2p (constants.HALF_COURT_LINE_HEIGHT * 2)
  let p3x := p0x + court_drawing_width
  let p3y := p2y
  let p4x := p0x + m2p constants.DOUBLE_ALLY_DIFFERENCE
  let p4y := p0y
  let p5x := p2x + m2p constants.DOUBLE_ALLY_DIFFERENCE
  let p5y := p2y
  let p6x := p1x - m2p constants.DOUBLE_ALLY_DIFFERENCE
  let p6y := p1y
  let p7x := p3x - m2p constants.DOUBLE_ALLY_DIFFERENCE
  let p7y := p3y
  let p8x := p4x
  let p8y := p4y + m2p constants.NO_MANS_LAND_HEIGHT
  let p9x := p8x + m2p constants.SINGLE_LINE_WIDTH
  let p9y := p8y
  let p10x := p5x
  let p10y := p5y - m2p constants.NO_MANS_LAND_HEIGHT
  let p11x := p10x + m2p constants.SINGLE_LINE_WIDTH
  let p11y := p10y
  let p12x := pyInt ((p8x + p9x) / 2)
  let p12y := p8y
  let p13x := pyInt ((p10x + p11x) / 2)
  let p13y := p10y
  { start_x := start_x, start_y := start_y, end_x := end_x, end_y := end_y
    court_start_x := court_start_x, court_start_y := court_start_y
    court_end_x := court_end_x, court_end_y := court_end_y
    court_drawing_width := court_drawing_width
    drawing_key_points :=
      [p0x, p0y, p1x, p1y, p2x, p2y, p3x, p3y, p4x, p4y, p5x, p5y, p6x, p6y,
       p7x, p7y, p8x, p8y, p9x, p9y, p10x, p10y, p11x, p11y, p12x, p12y, p13x, p13y] }

/-- Source MiniCourt.get_width_of_mini_court. -/
def MiniCourt.get_width_of_mini_court (mc : MiniCourt) : ℚ :=
  mc.court_drawing_width

/- ## mini_court/mini_court.py : dynamically-typed mapper arguments

The source method get_mini_court_coordinates declares its parameters in the
order (player_height_in_meters, object_position, closest_key_point,
closest_key_point_index, player_height_in_pixels), but both call sites pass
positional arguments in the order documented by the method docstring
(object_position, closest_key_point, closest_key_point_index,
player_height_in_pixels, player_height_in_meters).  To reason about what the
interpreter does under either binding, the arguments are embedded as dynamic
Python values. -/

/-- A dynamic Python value: an int, a float, or a 2-D point (tuple). -/
inductive PyVal where
  | int (n : ℤ)
  | float (q : ℚ)
  | pt (p : Point)
deriving DecidableEq, Repr

/-- Python subscript v[i]: only a tuple is subscriptable; an int or float
raises TypeError. -/
def PyVal.getitem (v : PyVal) (i : ℕ) : Except PyErr ℚ :=
  match v with
  | .pt p => if i = 0 then Except.ok p.1
             else if i = 1 then Except.ok p.2
             else Except.error PyErr.indexError
  | .int _ => Except.error PyErr.typeError
  | .float _ => Except.error PyErr.typeError

/-- Python numeric coercion for arithmetic: an int or float is a number; using
a tuple as a factor of a float multiplication or as a divisor raises
TypeError. -/
def PyVal.asNum (v : PyVal) : Except PyErr ℚ :=
  match v with
  | .int n => Except.ok (n : ℚ)
  | .float q => Except.ok q
  | .pt _ => Except.error PyErr.typeError

/-- Source measure_xy_distance applied to dynamic arguments: subscripts both
arguments, so a non-tuple argument raises TypeError. -/
def measure_xy_distance_dyn (p1 p2 : PyVal) : Except PyErr Point := do
  let a0 ← p1.getitem 0
  let b0 ← p2.getitem 0
  let a1 ← p1.getitem 1
  let b1 ← p2.getitem 1
  pure (|a0 - b0|, |a1 - b1|)

/-- Source convert_pixel_distance_to_meters applied with dynamic reference
heights (pixel_distance * refrence_height_in_meters / refrence_height_in_pixels). -/
def convert_pixel_distance_to_meters_dyn (pixel_distance : ℚ)
    (refrence_height_in_meters refrence_height_in_pixels : PyVal) : Except PyErr ℚ := do
  let m ← refrence_height_in_meters.asNum
  let p ← refrence_height_in_pixels.asNum
  pure (pixel_distance * m / p)

/-- The Python index expression v * mult + add: defined for an int (an int
index) and a float (a float index, rejected later by list indexing); for a
tuple the trailing integer addition raises TypeError. -/
def PyVal.idxExpr (v : PyVal) (mult add : ℕ) : Except PyErr PyVal :=
  match v with
  | .int n => Except.ok (.int (n * mult + add))
  | .float q => Except.ok (.float (q * mult + add))
  | .pt _ => Except.error PyErr.typeError

/-- Python list indexing l[v] with a dynamic index: list indices must be
integers (a float index raises TypeError even when integral); an integer
outside the range raises IndexError (negative indices do not occur here). -/
def pyIndexList (l : List ℚ) (v : PyVal) : Except PyErr ℚ :=
  match v with
  | .int n =>
    if h : 0 ≤ n ∧ n.toNat < l.length then Except.ok (l.get ⟨n.toNat, h.2⟩)
    else Except.error PyErr.indexError
  | .float _ => Except.error PyErr.typeError
  | .pt _ => Except.error PyErr.typeError

/-- Source MiniCourt.get_mini_court_coordinates with its declared parameter
order (player_height_in_meters first); the body follows the source lines:
measure_xy_distance on (object_position, closest_key_point), the two
pixel-to-meter conversions with (player_height_in_meters,
player_height_in_pixels), the meter-to-mini-court-pixel conversions, the
drawing-keypoint lookup at closest_key_point_index * 2 and * 2 + 1, and the
final offset addition. -/
def MiniCourt.get_mini_court_coordinates (mc : MiniCourt)
    (player_height_in_meters object_position closest_key_point
     closest_key_point_index player_height_in_pixels : PyVal) :
    Except PyErr Point := do
  let d ← measure_xy_distance_dyn object_position closest_key_point
  let distance_from_keypoint_x_meters ←
    convert_pixel_distance_to_meters_dyn d.1 player_height_in_meters player_height_in_pixels
  let distance_from_keypoint_y_meters ←
    convert_pixel_distance_to_meters_dyn d.2 player_height_in_meters player_height_in_pixels
  let mini_court_x_distance_pixels :=
    MiniCourt.convert_meters_to_pixels mc.court_drawing_width distance_from_keypoint_x_meters
  let mini_court_y_distance_pixels :=
    MiniCourt.convert_meters_to_pixels mc.court_drawing_width distance_from_keypoint_y_meters
  let ix ← closest_key_point_index.idxExpr 2 0
  let kx ← pyIndexList mc.drawing_key_points ix
  let iy ← closest_key_point_index.idxExpr 2 1
  let ky ← pyIndexList mc.drawing_key_points iy
  pure (kx + mini_court_x_distance_pixels, ky + mini_court_y_distance_pixels)

/- ## mini_court/mini_court.py : convert_bounding_boxes_to_mini_court_coordinates -/

/-- Source dict player_heights of convert_bounding_boxes_to_mini_court_coordinates:
real-world heights keyed only by track ids 1 and 2. -/
def player_heights : Dict ℚ :=
  [(1, constants.PLAYER_1_HEIGHT_METERS), (2, constants.PLAYER_2_HEIGHT_METERS)]

/-- Source lines 449-453 of convert_bounding_boxes_to_mini_court_coordinates:
the local reference pixel height of a player around a frame, the maximum
bbox height over Python range(max(0, frame_num - 20), min(len(player_boxes),
frame_num + 50)).  Natural subtraction models max(0, frame_num - 20); a frame
where the player is missing raises KeyError, and max of an empty sequence
raises ValueError. -/
def localReferenceHeight (player_boxes : List (Dict Box)) (frame_num player_id : ℕ) :
    Except PyErr ℚ := do
  let frame_index_min := frame_num - 20
  let frame_index_max := min player_boxes.length (frame_num + 50)
  let bboxes_heights_in_pixels ←
    (List.range' frame_index_min (frame_index_max - frame_index_min)).mapM
      (fun i => do
        let fr ← pyGet player_boxes i
        let bb ← dictGet fr player_id
        pure (get_height_of_bbox bb))
  pyListMax bboxes_heights_in_pixels

/-- The per-frame body of convert_bounding_boxes_to_mini_court_coordinates:
ball lookup, closest player to the ball, then the per-player loop computing
each mini-court player position (and, for the player closest to the ball, the
ball mini-court position).  The five arguments of each
get_mini_court_coordinates call are passed positionally exactly as the source
call site lists them (foot or ball position, keypoint, keypoint index, local
max pixel height, real-world height). -/
noncomputable def convertFrame (mc : MiniCourt) (player_boxes ball_boxes : List (Dict Box))
    (original_court_key_points : List ℚ) (frame_num : ℕ) (player_bbox : Dict Box) :
    Except PyErr (Dict Point × List (Dict Point)) := do
  let ball_frame ← pyGet ball_boxes frame_num
  let ball_box ← dictGet ball_frame 1
  let ball_position := get_center_of_bbox ball_box
  let closest ← pyMinBy player_bbox
    (fun e => measure_distance ball_position (get_center_of_bbox e.2))
  let closest_player_id_to_ball := closest.1
  player_bbox.foldlM
    (fun acc e => do
      let player_id := e.1
      let bbox := e.2
      let foot_position := get_foot_position bbox
      let closest_key_point_index ←
        get_closest_keypoint_index foot_position original_court_key_points [0, 2, 12, 13]
      let kx ← pyGet original_court_key_points (closest_key_point_index * 2)
      let ky ← pyGet original_court_key_points (closest_key_point_index * 2 + 1)
      let closest_key_point : Point := (kx, ky)
      let max_player_height_in_pixels ← localReferenceHeight player_boxes frame_num player_id
      let hm ← dictGet player_heights player_id
      let mini_court_player_position ← mc.get_mini_court_coordinates
        (PyVal.pt foot_position) (PyVal.pt closest_key_point)
        (PyVal.int (closest_key_point_index : ℤ))
        (PyVal.float max_player_height_in_pixels) (PyVal.float hm)
      if closest_player_id_to_ball = player_id then do
        let ball_key_point_index ←
          get_closest_keypoint_index ball_position original_court_key_points [0, 2, 12, 13]
        let bkx ← pyGet original_court_key_points (ball_key_point_index * 2)
        let bky ← pyGet original_court_key_points (ball_key_point_index * 2 + 1)
        let mini_court_ball_position ← mc.get_mini_court_coordinates
          (PyVal.pt ball_position) (PyVal.pt (bkx, bky))
          (PyVal.int (ball_key_point_index : ℤ))
          (PyVal.float max_player_height_in_pixels) (PyVal.float hm)
        pure (acc.1 ++ [(player_id, mini_court_player_position)],
              acc.2 ++ [[(1, mini_court_ball_position)]])
      else
        pure (acc.1 ++ [(player_id, mini_court_player_position)], acc.2))
    (([], []) : Dict Point × List (Dict Point))

/-- The frame loop of convert_bounding_boxes_to_mini_court_coordinates,
carrying the enumerate index. -/
noncomputable def convertFrames (mc : MiniCourt) (player_boxes ball_boxes : List (Dict Box))
    (original_court_key_points : List ℚ) :
    ℕ → List (Dict Box) → Except PyErr (List (Dict Point) × List (Dict Point))
  | _, [] => Except.ok ([], [])
  | frame_num, player_bbox :: rest => do
    let r ← convertFrame mc player_boxes ball_boxes original_court_key_points
      frame_num player_bbox
    let rs ← convertFrames mc player_boxes ball_boxes original_court_key_points
      (frame_num + 1) rest
    pure (r.1 :: rs.1, r.2 ++ rs.2)

/-- Source MiniCourt.convert_bounding_boxes_to_mini_court_coordinates. -/
noncomputable def convert_bounding_boxes_to_mini_court_coordinates (mc : MiniCourt)
    (player_boxes ball_boxes : List (Dict Box)) (original_court_key_points : List ℚ) :
    Except PyErr (List (Dict Point) × List (Dict Point)) :=
  convertFrames mc player_boxes ball_boxes original_court_key_points 0 player_boxes

/- ## main.py : stat aggregator (lines 67-140) -/

/-- One snapshot of the running player statistics (the dict of main.py lines
67-80): per player the cumulative shot count, cumulative summed shot speed,
last shot speed, cumulative summed movement speed and last movement speed,
plus the frame number of the snapshot. -/
structure PlayerStats where
  frame_num : ℕ
  player_1_number_of_shots : ℕ
  player_1_total_shot_speed : ℝ
  player_1_last_shot_speed : ℝ
  player_1_total_player_speed : ℝ
  player_1_last_player_speed : ℝ
  player_2_number_of_shots : ℕ
  player_2_total_shot_speed : ℝ
  player_2_last_shot_speed : ℝ
  player_2_total_player_speed : ℝ
  player_2_last_player_speed : ℝ

/-- The zeroed baseline snapshot at frame 0 (main.py lines 67-80). -/
def initial_player_stats : PlayerStats :=
  { frame_num := 0
    player_1_number_of_shots := 0, player_1_total_shot_speed := 0
    player_1_last_shot_speed := 0, player_1_total_player_speed := 0
    player_1_last_player_speed := 0
    player_2_number_of_shots := 0, player_2_total_shot_speed := 0
    player_2_last_shot_speed := 0, player_2_total_player_speed := 0
    player_2_last_player_speed := 0 }

/-- Main-loop ball speed for one shot interval (main.py lines 91-102):
elapsed seconds at the fixed 24 fps, the mini-court pixel displacement of the
ball between the two shot frames, its conversion to meters through the
double-line width and the mini-court drawing width, and the km/h speed. -/
noncomputable def ball_shot_speed (mc : MiniCourt)
    (ball_mini_court_detections : List (Dict Point)) (start_frame end_frame : ℕ) :
    Except PyErr ℝ := do
  let ball_shot_time_in_seconds : ℚ := ((end_frame : ℚ) - (start_frame : ℚ)) / 24
  let bs ← pyGet ball_mini_court_detections start_frame
  let bstart ← dictGet bs 1
  let be ← pyGet ball_mini_court_detections end_frame
  let bend ← dictGet be 1
  let distance_covered_by_ball_pixels := measure_distance bstart bend
  let distance_covered_by_ball_meters := convert_pixel_distance_to_meters
    distance_covered_by_ball_pixels ((constants.DOUBLE_LINE_WIDTH : ℚ) : ℝ)
    ((mc.get_width_of_mini_court : ℚ) : ℝ)
  pure (distance_covered_by_ball_meters / ((ball_shot_time_in_seconds : ℚ) : ℝ) * 3.6)

/-- Main-loop striker attribution (main.py lines 105-107): the player whose
mini-court position at the start frame is nearest the ball's mini-court
position there; Python min keeps the first key on ties. -/
noncomputable def player_shot_ball_id (player_mini_court_detections
    ball_mini_court_detections : List (Dict Point)) (start_frame : ℕ) :
    Except PyErr ℕ := do
  let player_positions ← pyGet player_mini_court_detections start_frame
  let bs ← pyGet ball_mini_court_detections start_frame
  let ball_pos ← dictGet bs 1
  let m ← pyMinBy player_positions (fun e => measure_distance e.2 ball_pos)
  pure m.1

/-- Main-loop opponent movement speed for one shot interval (main.py lines
111-118). -/
noncomputable def opponent_speed (mc : MiniCourt)
    (player_mini_court_detections : List (Dict Point))
    (opponent_player_id start_frame end_frame : ℕ) : Except PyErr ℝ := do
  let ball_shot_time_in_seconds : ℚ := ((end_frame : ℚ) - (start_frame : ℚ)) / 24
  let ps ← pyGet player_mini_court_detections start_frame
  let pstart ← dictGet ps opponent_player_id
  let pe ← pyGet player_mini_court_detections end_frame
  let pend ← dictGet pe opponent_player_id
  let distance_covered_by_opponent_pixels := measure_distance pstart pend
  let distance_covered_by_opponent_meters := convert_pixel_distance_to_meters
    distance_covered_by_opponent_pixels ((constants.DOUBLE_LINE_WIDTH : ℚ) : ℝ)
    ((mc.get_width_of_mini_court : ℚ) : ℝ)
  pure (distance_covered_by_opponent_meters / ((ball_shot_time_in_seconds : ℚ) : ℝ) * 3.6)

/-- Main-loop opponent attribution (main.py line 110): hard-coded as id 1
when the striker is id 2 and id 2 otherwise. -/
def opponent_of (player_shot_ball : ℕ) : ℕ :=
  if player_shot_ball = 2 then 1 else 2

/-- One iteration of the main stats loop (main.py lines 88-129) for the shot
interval (start_frame, end_frame): compute the ball speed, the striker, the
opponent (hard-coded as id 1 when the striker is id 2 and id 2 otherwise) and
the opponent speed, then update a deep copy of the previous snapshot.  The
update writes through f-string keys player_ID_..., so a striker id other
than 1 or 2 hits a missing dict key and raises KeyError. -/
noncomputable def statStep (mc : MiniCourt)
    (player_mini_court_detections ball_mini_court_detections : List (Dict Point))
    (prev : PlayerStats) (start_frame end_frame : ℕ) : Except PyErr PlayerStats := do
  let speed_of_ball_shot ← ball_shot_speed mc ball_mini_court_detections
    start_frame end_frame
  let player_shot_ball ← player_shot_ball_id player_mini_court_detections
    ball_mini_court_detections start_frame
  let opponent_player_id := opponent_of player_shot_ball
  let speed_of_opponent ← opponent_speed mc player_mini_court_detections
    opponent_player_id start_frame end_frame
  let c0 := { prev with frame_num := start_frame }
  let c1 ←
    if player_shot_ball = 1 then
      Except.ok { c0 with
        player_1_number_of_shots := c0.player_1_number_of_shots + 1
        player_1_total_shot_speed := c0.player_1_total_shot_speed + speed_of_ball_shot
        player_1_last_shot_speed := speed_of_ball_shot }
    else if player_shot_ball = 2 then
      Except.ok { c0 with
        player_2_number_of_shots := c0.player_2_number_of_shots + 1
        player_2_total_shot_speed := c0.player_2_total_shot_speed + speed_of_ball_shot
        player_2_last_shot_speed := speed_of_ball_shot }
    else
      Except.error PyErr.keyError
  if opponent_player_id = 1 then
    pure { c1 with
      player_1_total_player_speed := c1.player_1_total_player_speed + speed_of_opponent
      player_1_last_player_speed := speed_of_opponent }
  else
    pure { c1 with
      player_2_total_player_speed := c1.player_2_total_player_speed + speed_of_opponent
      player_2_last_player_speed := speed_of_opponent }

/-- The main stats loop over consecutive shot-frame pairs, appending one
snapshot per interval. -/
noncomputable def buildStats (mc : MiniCourt)
    (player_mini_court_detections ball_mini_court_detections : List (Dict Point)) :
    PlayerStats → List (ℕ × ℕ) → Except PyErr (List PlayerStats)
  | _, [] => Except.ok []
  | prev, (s, e) :: rest => do
    let cur ← statStep mc player_mini_court_detections ball_mini_court_detections prev s e
    let tail ← buildStats mc player_mini_court_detections ball_mini_court_detections cur rest
    pure (cur :: tail)

/-- The consecutive shot-frame pairs (ball_shot_frames[ind],
ball_shot_frames[ind+1]) for ind in range(len - 1). -/
def shotPairs (ball_shot_frames : List ℕ) : List (ℕ × ℕ) :=
  ball_shot_frames.zip ball_shot_frames.tail

/-- Source player_stats_data of main.py: the baseline snapshot followed by one
snapshot per shot interval. -/
noncomputable def player_stats_data (mc : MiniCourt) (ball_shot_frames : List ℕ)
    (player_mini_court_detections ball_mini_court_detections : List (Dict Point)) :
    Except PyErr (List PlayerStats) := do
  let rows ← buildStats mc player_mini_court_detections ball_mini_court_detections
    initial_player_stats (shotPairs ball_shot_frames)
  pure (initial_player_stats :: rows)

/-- Model of pd.merge(frames_df, stats_df, on=frame_num, how=left) followed by
ffill (main.py lines 132-135) at one frame: the last emitted snapshot whose
frame number does not exceed the frame.  Faithful for snapshot lists whose
frame numbers are strictly increasing and start at 0, which
player_stats_data produces for strictly increasing shot frames. -/
def tableAt (stats : List PlayerStats) (f : ℕ) : PlayerStats :=
  ((stats.filter (fun s => s.frame_num ≤ f)).getLast?).getD initial_player_stats

/-- Model of the pandas float column division of main.py lines 137-140: in the
pipeline the numerator column is 0 whenever the count column is 0 (sums and
counts accrue together), so a zero count is exactly the float NaN case
0.0 / 0, rendered on screen as the not-available sentinel; it is modeled as
none.  The division never raises. -/
noncomputable def pdDivNaN (a : ℝ) (b : ℕ) : Option ℝ :=
  if b = 0 then none else some (a / (b : ℝ))

/-- Source column player_1_average_shot_speed (main.py line 137). -/
noncomputable def player_1_average_shot_speed (stats : List PlayerStats) (f : ℕ) : Option ℝ :=
  pdDivNaN (tableAt stats f).player_1_total_shot_speed
    (tableAt stats f).player_1_number_of_shots

/-- Source column player_2_average_shot_speed (main.py line 138). -/
noncomputable def player_2_average_shot_speed (stats : List PlayerStats) (f : ℕ) : Option ℝ :=
  pdDivNaN (tableAt stats f).player_2_total_shot_speed
    (tableAt stats f).player_2_number_of_shots

/-- Source column player_1_average_player_speed (main.py line 139): the
movement total of player 1 divided by the shot count of player 2. -/
noncomputable def player_1_average_player_speed (stats : List PlayerStats) (f : ℕ) : Option ℝ :=
  pdDivNaN (tableAt stats f).player_1_total_player_speed
    (tableAt stats f).player_2_number_of_shots

/-- Source column player_2_average_player_speed (main.py line 140): the
movement total of player 2 divided by the shot count of player 1. -/
noncomputable def player_2_average_player_speed (stats : List PlayerStats) (f : ℕ) : Option ℝ :=
  pdDivNaN (tableAt stats f).player_2_total_player_speed
    (tableAt stats f).player_1_number_of_shots

/- ## trackers/ball_tracker.py : interpolate_ball_positions

The source extracts each frame's box via x.get(1, []) (an empty list when the
ball is missing, giving a NaN DataFrame row), runs DataFrame.interpolate()
(default linear method over the positional index: interior gaps become linear
interpolations between the nearest earlier and later valid samples, trailing
gaps repeat the last valid sample, leading gaps stay NaN) and then bfill()
(leading gaps take the next valid sample).  The two pandas primitives are
modeled pointwise below; a frame is an Option Box since the per-frame dict is
either the singleton with key 1 or empty. -/

/-- The index and value of the nearest known sample at or before t. -/
def lastKnownUpto (xs : List (Option ℚ)) : ℕ → Option (ℕ × ℚ)
  | 0 =>
    match xs.getD 0 none with
    | some v => some (0, v)
    | none => none
  | (t + 1) =>
    match xs.getD (t + 1) none with
    | some v => some (t + 1, v)
    | none => lastKnownUpto xs t

/-- The index and value of the nearest known sample at or after t. -/
def firstKnownFrom (xs : List (Option ℚ)) (t : ℕ) : Option (ℕ × ℚ) :=
  if _h : t < xs.length then
    match xs.getD t none with
    | some v => some (t, v)
    | none => firstKnownFrom xs (t + 1)
  else none
termination_by xs.length - t
decreasing_by omega

/-- Pointwise model of pandas linear interpolate() at index t: a known sample
is kept; an interior gap becomes the linear interpolation between the nearest
earlier and later known samples (the positions are equally spaced, so the
weight is the index difference); a trailing gap repeats the last known value;
a leading gap stays missing. -/
def interpAt (xs : List (Option ℚ)) (t : ℕ) : Option ℚ :=
  match xs.getD t none with
  | some v => some v
  | none =>
    match lastKnownUpto xs t, firstKnownFrom xs (t + 1) with
    | some (e, ve), some (l, vl) =>
      some (ve + (vl - ve) * ((t : ℚ) - (e : ℚ)) / ((l : ℚ) - (e : ℚ)))
    | some (_, ve), none => some ve
    | none, _ => none

/-- Model of DataFrame.interpolate() on one coordinate channel. -/
def pdInterpolate (xs : List (Option ℚ)) : List (Option ℚ) :=
  (List.range xs.length).map (interpAt xs)

/-- Pointwise model of pandas bfill() at index t. -/
def bfillAt (xs : List (Option ℚ)) (t : ℕ) : Option ℚ :=
  match xs.getD t none with
  | some v => some v
  | none => (firstKnownFrom xs (t + 1)).map (fun e => e.2)

/-- Model of DataFrame.bfill() on one coordinate channel. -/
def pdBfill (xs : List (Option ℚ)) : List (Option ℚ) :=
  (List.range xs.length).map (bfillAt xs)

/-- Source BallTracker.interpolate_ball_positions: each of the four box
coordinates is an independent scalar series, interpolated then backfilled;
the output frames are rebuilt as singleton dicts with key 1 (some box when
every channel resolved, which happens for all frames as soon as any
detection exists). -/
def interpolate_ball_positions (ball_positions : List (Option Box)) : List (Option Box) :=
  let c1 := pdBfill (pdInterpolate (ball_positions.map (Option.map Box.x1)))
  let c2 := pdBfill (pdInterpolate (ball_positions.map (Option.map Box.y1)))
  let c3 := pdBfill (pdInterpolate (ball_positions.map (Option.map Box.x2)))
  let c4 := pdBfill (pdInterpolate (ball_positions.map (Option.map Box.y2)))
  (List.range ball_positions.length).map (fun t =>
    match c1.getD t none, c2.getD t none, c3.getD t none, c4.getD t none with
    | some a, some b, some c, some d => some (Box.mk a b c d)
    | _, _, _, _ => none)

/- ## trackers/ball_tracker.py : get_ball_shot_frames

The input is the fully interpolated trajectory (one box per frame), on which
the dict extraction x.get(1, []) of the source is the identity.  The source
scans candidate indices i in Python range(1, len - 30) (the lookahead margin
is int(25 * 1.2) = 30), so delta at index 0 (NaN in the source DataFrame) is
never read. -/

/-- Source column mid_y: vertical midpoint of frame t (the index is in range
in every use below). -/
def mid_y (ball_positions : List Box) (t : ℕ) : ℚ :=
  ((ball_positions.getD t (Box.mk 0 0 0 0)).y1 +
   (ball_positions.getD t (Box.mk 0 0 0 0)).y2) / 2

/-- Source column mid_y_rolling_mean: trailing moving average with window 5
and min_periods 1, so the mean of mid_y over frames max(0, t - 4) .. t. -/
def mid_y_rolling_mean (ball_positions : List Box) (t : ℕ) : ℚ :=
  ((List.range' (t + 1 - 5) (t + 1 - (t + 1 - 5))).map (mid_y ball_positions)).sum /
    (((t + 1 - (t + 1 - 5)) : ℕ) : ℚ)

/-- Source column delta_y: first difference of the rolling mean, read only at
indices t with 1 <= t (the source value at index 0 is NaN and never read). -/
def delta_y (ball_positions : List Box) (t : ℕ) : ℚ :=
  mid_y_rolling_mean ball_positions t - mid_y_rolling_mean ball_positions (t - 1)

/-- The inner confirmation loop of get_ball_shot_frames at candidate i: over
change_frame in Python range(i + 1, i + 31), count the frames whose delta has
the sign that followed the reversal at i (the source keeps the reversal flags
inside both following-frame conditions). -/
def change_count (ball_positions : List Box) (i : ℕ) : ℕ :=
  let negative_position_change :=
    0 < delta_y ball_positions i ∧ delta_y ball_positions (i + 1) < 0
  let positive_position_change :=
    delta_y ball_positions i < 0 ∧ 0 < delta_y ball_positions (i + 1)
  (List.range' (i + 1) 30).foldl
    (fun cnt change_frame =>
      let negative_following :=
        0 < delta_y ball_positions i ∧ delta_y ball_positions change_frame < 0
      let positive_following :=
        delta_y ball_positions i < 0 ∧ 0 < delta_y ball_positions change_frame
      if negative_position_change ∧ negative_following then cnt + 1
      else if positive_position_change ∧ positive_following then cnt + 1
      else cnt) 0

/-- The ball_hit flag column written by the candidate scan of
get_ball_shot_frames: starting from all-zero flags, each candidate i in
Python range(1, len - 30) with a strict sign reversal between delta(i) and
delta(i + 1) and a confirmation count above minimum_change_frames_for_hit - 1
= 24 has its flag set. -/
def ballHitMarks (ball_positions : List Box) : List Bool :=
  (List.range' 1 (ball_positions.length - 30 - 1)).foldl
    (fun marks i =>
      let negative_position_change :=
        0 < delta_y ball_positions i ∧ delta_y ball_positions (i + 1) < 0
      let positive_position_change :=
        delta_y ball_positions i < 0 ∧ 0 < delta_y ball_positions (i + 1)
      if negative_position_change ∨ positive_position_change then
        (if 25 - 1 < change_count ball_positions i then marks.set i true else marks)
      else marks)
    (List.replicate ball_positions.length false)

/-- Source BallTracker.get_ball_shot_frames: the DataFrame indices whose
ball_hit flag is set, in increasing order. -/
def get_ball_shot_frames (ball_positions : List Box) : List ℕ :=
  (List.range ball_positions.length).filter
    (fun i => (ballHitMarks ball_positions).getD i false)

/- ## trackers/player_tracker.py : choose_players -/

/-- Source inner loop of choose_players: the minimum Euclidean distance from
a box center to any court keypoint, folding from float inf (the top element)
over the keypoint pairs at flat indices (0,1), (2,3), ...; a flat list of odd
length raises IndexError on the final kps[i + 1]. -/
noncomputable def min_keypoint_distance (court_keypoints : List ℚ) (player_center : Point) :
    Except PyErr (WithTop ℝ) :=
  (List.range' 0 ((court_keypoints.length + 1) / 2)).foldlM
    (fun min_distance j => do
      let kx ← pyGet court_keypoints (2 * j)
      let ky ← pyGet court_keypoints (2 * j + 1)
      let distance := measure_distance player_center (kx, ky)
      if (distance : WithTop ℝ) < min_distance then pure ((distance : ℝ) : WithTop ℝ)
      else pure min_distance)
    (⊤ : WithTop ℝ)

/-- Total form of the keypoint-distance minimum, defined when the flat
keypoint list has even length. -/
noncomputable def minKeypointDistanceT (court_keypoints : List ℚ) (player_center : Point) :
    WithTop ℝ :=
  (List.range' 0 ((court_keypoints.length + 1) / 2)).foldl
    (fun min_distance j =>
      let distance := measure_distance player_center
        (court_keypoints.getD (2 * j) 0, court_keypoints.getD (2 * j + 1) 0)
      if (distance : WithTop ℝ) < min_distance then ((distance : ℝ) : WithTop ℝ)
      else min_distance)
    (⊤ : WithTop ℝ)

/-- Source PlayerTracker.choose_players: build (track_id, min-distance) pairs
in dict order, sort ascending by the distance (Python list.sort, stable), and
take the first two entries; fewer than two detections raise IndexError at
distances[0] or distances[1]. -/
noncomputable def choose_players (court_keypoints : List ℚ) (player_dict : Dict Box) :
    Except PyErr (List ℕ) := do
  let distances ← player_dict.mapM (fun e => do
    let player_center := get_center_of_bbox e.2
    let md ← min_keypoint_distance court_keypoints player_center
    pure (e.1, md))
  let sorted := distances.mergeSort (fun a b => decide (a.2 ≤ b.2))
  let d0 ← pyGet sorted 0
  let d1 ← pyGet sorted 1
  pure [d0.1, d1.1]

/- ## Claim-side window formulations for the local scale calibration (C6) -/

/-- The calibration window maximum exactly as the claim words it: the maximum
bounding-box height of the player over the frames from max(0, f - 20) through
min(last frame, f + 50), BOTH endpoints inclusive (last frame = length - 1).
Stated in the Option monad over total lookups. -/
def inclusiveWindowMax (player_boxes : List (Dict Box)) (frame_num player_id : ℕ) :
    Option ℚ := do
  let lo := frame_num - 20
  let hi := min (player_boxes.length - 1) (frame_num + 50)
  let hs ← (List.range' lo (hi + 1 - lo)).mapM
    (fun i => ((player_boxes.getD i []).find? (fun e => e.1 = player_id)).map
      (fun e => get_height_of_bbox e.2))
  hs.max?

/-- The calibration window maximum with the upper endpoint the code actually
uses: frames from max(0, f - 20) through min(frame count, f + 50) - 1, both
endpoints inclusive (so at most f + 49, one frame short of the claim). -/
def correctedWindowMax (player_boxes : List (Dict Box)) (frame_num player_id : ℕ) :
    Option ℚ := do
  let lo := frame_num - 20
  let hi := min player_boxes.length (frame_num + 50) - 1
  let hs ← (List.range' lo (hi + 1 - lo)).mapM
    (fun i => ((player_boxes.getD i []).find? (fun e => e.1 = player_id)).map
      (fun e => get_height_of_bbox e.2))
  hs.max?

/- ## Concrete example inputs used by the theorems -/

/-- Player boxes over 51 frames: player 1 has bbox height 1 on frames 0..49
and height 2 on frame 50 only. -/
def exC6PlayerBoxes : List (Dict Box) :=
  (List.range 51).map
    (fun i => [(1, if i = 50 then Box.mk 0 0 0 2 else Box.mk 0 0 0 1)])

/-- Ball mini-court trajectory for the end-to-end speed scenario: position
(100, 100) on every frame up to 57 (in particular at shot frame 10) and
(100, 400) at shot frame 58. -/
def exBallMiniC4 : List (Dict Point) :=
  (List.range 59).map
    (fun t => [(1, if t = 58 then ((100 : ℚ), (400 : ℚ)) else ((100 : ℚ), (100 : ℚ)))])

/-- Single-frame player boxes used as witness input: player 1 with height 1. -/
def exC6SmallBoxes : List (Dict Box) := [[(1, Box.mk 0 0 0 1)]]

/-- A 40-frame ball trajectory used as witness input for the shot detector. -/
def exC5Traj : List Box := (List.range 40).map (fun _ => Box.mk 0 0 0 0)

/-- Two frames of player detections: both selected players (ids 1 and 2) are
present in frame 0, and player 2 is absent from the later frame 1 (the
external tracker lost it). -/
def exC2PlayerBoxes : List (Dict Box) :=
  [[(1, Box.mk 0 0 2 2), (2, Box.mk 10 10 12 14)], [(1, Box.mk 0 0 2 2)]]

/-- Ball detections for both frames. -/
def exC2BallBoxes : List (Dict Box) :=
  [[(1, Box.mk 0 0 2 2)], [(1, Box.mk 0 0 2 2)]]

/-- A flat court-keypoint list of 28 zeros. -/
def exC2Kps : List ℚ := List.replicate 28 0

/-- One frame of player detections whose selected track ids are 7 and 12, as
in the end-to-end scenario of the spec. -/
def exC10PlayerBoxes : List (Dict Box) :=
  [[(7, Box.mk 0 0 2 2), (12, Box.mk 10 10 12 14)]]

/-- One frame of ball detections for the id-7/12 scenario. -/
def exC10BallBoxes : List (Dict Box) := [[(1, Box.mk 0 0 2 2)]]

/-- Two frames of mini-court player positions keyed by track ids 7 and 12,
with player 7 sitting exactly on the ball position. -/
def exC10PlayerMini : List (Dict Point) :=
  [[(7, ((0 : ℚ), (0 : ℚ))), (12, ((0 : ℚ), (10 : ℚ)))],
   [(7, ((0 : ℚ), (0 : ℚ))), (12, ((0 : ℚ), (10 : ℚ)))]]

/-- Two frames of mini-court ball positions for the id-7/12 scenario. -/
def exC10BallMini : List (Dict Point) :=
  [[(1, ((0 : ℚ), (0 : ℚ)))], [(1, ((0 : ℚ), (0 : ℚ)))]]

/-- The real value carried by a successful Except computation (the stats loop
only accumulates speeds whose computations succeeded; a failed computation,
which never occurs on the domains where this is used, is mapped to 0). -/
noncomputable def okReal : Except PyErr ℝ → ℝ
  | Except.ok v => v
  | Except.error _ => 0

/-- The processed shot intervals with start frame at most f whose striker
(main.py lines 105-107) is player pid: the intervals in which pid accrues a
shot and the other selected player accrues a movement-speed sample as
non-striker. -/
noncomputable def strikerIntervals (pm bm : List (Dict Point))
    (ps : List (ℕ × ℕ)) (f pid : ℕ) : List (ℕ × ℕ) :=
  ps.filter (fun pr => decide (pr.1 ≤ f ∧ player_shot_ball_id pm bm pr.1 = Except.ok pid))

/-- Three frames of mini-court player positions: player 1 sits exactly on the
ball, player 2 at vertical offset 300; nobody moves across frames. -/
def exC3PlayerMini : List (Dict Point) :=
  [[(1, ((0 : ℚ), (0 : ℚ))), (2, ((0 : ℚ), (300 : ℚ)))],
   [(1, ((0 : ℚ), (0 : ℚ))), (2, ((0 : ℚ), (300 : ℚ)))],
   [(1, ((0 : ℚ), (0 : ℚ))), (2, ((0 : ℚ), (300 : ℚ)))]]

/-- Three frames of mini-court ball positions: the ball rests at the origin. -/
def exC3BallMini : List (Dict Point) :=
  [[(1, ((0 : ℚ), (0 : ℚ)))], [(1, ((0 : ℚ), (0 : ℚ)))], [(1, ((0 : ℚ), (0 : ℚ)))]]

/- # Theorems -/

/-- Helper: bind on a successful Except computation. -/
@[simp]
theorem except_bind_ok {ε α β : Type} (a : α) (f : α → Except ε β) :
    (Except.ok a >>= f : Except ε β) = f a := rfl

/-- Helper: bind on a failed Except computation. -/
@[simp]
theorem except_bind_error {ε α β : Type} (e : ε) (f : α → Except ε β) :
    (Except.error e >>= f : Except ε β) = Except.error e := rfl

/-- Helper: pure on Except is Except.ok. -/
@[simp]
theorem except_pure_eq {ε α : Type} (a : α) :
    (pure a : Except ε α) = Except.ok a := rfl

/-- C1 (code_bug): the mapper round-trip.  First conjunct: with the arguments
bound positionally as convert_bounding_boxes_to_mini_court_coordinates passes
them (object position, anchor keypoint, anchor index, local pixel height, real
height 1.9 m), an object placed exactly at the original keypoint (10, 20) with
local reference pixel height equal to the calibration height makes
get_mini_court_coordinates raise TypeError: the declared parameter order
shifts every argument, so measure_xy_distance subscripts the integer anchor
index.  Second conjunct: under the parameter roles documented by the source
docstring (the order both call sites intend), the same input returns exactly
keypoint 0's mini-court position, as the claim states. -/
theorem c1_mapper_round_trip :
    (MiniCourt.get_mini_court_coordinates (MiniCourt.build 1920)
        (PyVal.pt (10, 20)) (PyVal.pt (10, 20)) (PyVal.int 0)
        (PyVal.float (19/10)) (PyVal.float (19/10))
      = Except.error PyErr.typeError)
    ∧
    (MiniCourt.get_mini_court_coordinates (MiniCourt.build 1920)
        (PyVal.float (19/10)) (PyVal.pt (10, 20)) (PyVal.pt (10, 20))
        (PyVal.int 0) (PyVal.float (19/10))
      = Except.ok (((MiniCourt.build 1920).drawing_key_points.getD 0 0),
                   ((MiniCourt.build 1920).drawing_key_points.getD 1 0))) := by
  constructor
  · rfl
  · simp [MiniCourt.get_mini_court_coordinates, measure_xy_distance_dyn, PyVal.getitem,
      convert_pixel_distance_to_meters_dyn, PyVal.asNum, PyVal.idxExpr, pyIndexList,
      MiniCourt.convert_meters_to_pixels, convert_meters_to_pixel_distance,
      MiniCourt.build, pyInt, Except.bind, pure, Except.pure]

/-- C4 (confirmed): end-to-end speed computation.  The mini-court drawing
width is 210 px, and for the shot-frame pair (10, 58) at 24 fps with ball
mini-court positions (100, 100) at frame 10 and (100, 400) at frame 58 and
the spec double-line width 10.97 m, the aggregator ball-speed computation
returns exactly 9873/350 = 28.208571... km/h, within 0.01 of the claimed
28.2 km/h. -/
theorem c4_end_to_end_speed :
    (MiniCourt.build 1920).get_width_of_mini_court = 210 ∧
    ball_shot_speed (MiniCourt.build 1920) exBallMiniC4 10 58 =
      Except.ok ((9873 : ℝ) / 350) ∧
    |(9873 : ℝ) / 350 - 28.2| ≤ 0.01 := by
  refine ⟨by norm_num [MiniCourt.get_width_of_mini_court, MiniCourt.build], ?_,
    by rw [show |(9873 : ℝ) / 350 - 28.2| = |(3 : ℝ) / 350| by norm_num]
       rw [abs_of_nonneg (by norm_num : (0:ℝ) ≤ 3 / 350)]; norm_num⟩
  have h10 : pyGet exBallMiniC4 10 = Except.ok [(1, ((100 : ℚ), (100 : ℚ)))] := by
    simp [pyGet, exBallMiniC4, List.getElem?_map, List.getElem?_range]
  have h58 : pyGet exBallMiniC4 58 = Except.ok [(1, ((100 : ℚ), (400 : ℚ)))] := by
    simp [pyGet, exBallMiniC4, List.getElem?_map, List.getElem?_range]
  have hdist : measure_distance ((100 : ℚ), (100 : ℚ)) ((100 : ℚ), (400 : ℚ)) = 300 := by
    simp only [measure_distance]
    rw [show ((((100 : ℚ) - 100 : ℚ) : ℝ) ^ 2 + (((100 : ℚ) - 400 : ℚ) : ℝ) ^ 2) = 300 ^ 2 by
      push_cast; norm_num]
    exact Real.sqrt_sq (by norm_num)
  simp only [ball_shot_speed, h10, h58, except_bind_ok, dictGet, List.find?]
  norm_num [hdist, convert_pixel_distance_to_meters, MiniCourt.get_width_of_mini_court,
    MiniCourt.build, constants.DOUBLE_LINE_WIDTH]

/-- Helper: a mapM in the Except monad succeeds with the pointwise values when
every element maps successfully. -/
theorem mapM_except_ok {α β : Type} (l : List α) (f : α → Except PyErr β) (g : α → β)
    (h : ∀ a ∈ l, f a = Except.ok (g a)) : l.mapM f = Except.ok (l.map g) := by
  induction l with
  | nil => rfl
  | cons a t ih =>
    rw [List.mapM_cons, h a (List.mem_cons_self a t),
      ih (fun x hx => h x (List.mem_cons_of_mem a hx))]
    rfl

/-- Helper: a successful mapM in the Option monad transfers to the Except
monad when the per-element computations agree on successes. -/
theorem mapM_option_to_except {α β : Type} (l : List α) (oF : α → Option β)
    (eF : α → Except PyErr β) (hs : List β)
    (hcomp : ∀ a ∈ l, ∀ b, oF a = some b → eF a = Except.ok b)
    (h : l.mapM oF = some hs) : l.mapM eF = Except.ok hs := by
  induction l generalizing hs with
  | nil =>
    rw [List.mapM_nil] at h ⊢
    simp only [Option.pure_def, Option.some.injEq] at h
    rw [← h]
    rfl
  | cons a t ih =>
    rw [List.mapM_cons] at h
    cases hoa : oF a with
    | none => rw [hoa] at h; simp at h
    | some b =>
      rw [hoa] at h
      cases hot : t.mapM oF with
      | none => rw [hot] at h; simp at h
      | some bs =>
        rw [hot] at h
        simp only [Option.bind_some, Option.pure_def, Option.some.injEq] at h
        rw [List.mapM_cons, hcomp a (List.mem_cons_self a t) b hoa,
          ih bs (fun x hx => hcomp x (List.mem_cons_of_mem a hx)) hot]
        simp at h
        simp [h]

/-- Helper: Python max over a list agrees with List.max? on nonempty lists
(and raises ValueError exactly when max? is none). -/
theorem pyListMax_eq_max? (l : List ℚ) (m : ℚ) (h : l.max? = some m) :
    pyListMax l = Except.ok m := by
  cases l with
  | nil => simp [List.max?] at h
  | cons x xs =>
    simp only [List.max?, Option.some.injEq] at h
    simp only [pyListMax, Except.ok.injEq]
    rw [show (fun (acc v : ℚ) => if acc < v then v else acc) = max by
      funext a b
      rcases lt_trichotomy a b with hab | hab | hab
      · rw [if_pos hab, max_eq_right hab.le]
      · subst hab
        rw [if_neg (lt_irrefl a), max_self]
      · rw [if_neg (not_lt.mpr hab.le), max_eq_left hab.le]]
    exact h

/-- Helper: a mapM in the Option monad succeeds with the pointwise values when
every element maps successfully. -/
theorem mapM_option_ok {α β : Type} (l : List α) (f : α → Option β) (g : α → β)
    (h : ∀ a ∈ l, f a = some (g a)) : l.mapM f = some (l.map g) := by
  induction l with
  | nil => rfl
  | cons a t ih =>
    rw [List.mapM_cons, h a (List.mem_cons_self a t),
      ih (fun x hx => h x (List.mem_cons_of_mem a hx))]
    rfl

/-- Helper: folding max of a constant list over the same constant. -/
theorem foldl_max_replicate (n : ℕ) (c : ℚ) : (List.replicate n c).foldl max c = c := by
  induction n with
  | zero => rfl
  | succ k ih => rw [List.replicate_succ, List.foldl_cons, max_self]; exact ih

/-- C6 counterexample: with player 1 present on all 51 frames 0..50, heights 1
on frames 0..49 and height 2 on frame 50 only, the claimed inclusive window
for frame 0 is 0..min(50, 50) = 0..50 and has maximum 2, but the code
computes the maximum over Python range(0, min(51, 50)) = 0..49, which is 1:
the local reference height does not equal the claimed inclusive-window
maximum. -/
theorem c6_counterexample :
    inclusiveWindowMax exC6PlayerBoxes 0 1 = some 2 ∧
    localReferenceHeight exC6PlayerBoxes 0 1 = Except.ok 1 ∧
    localReferenceHeight exC6PlayerBoxes 0 1 ≠ Except.ok 2 := by
  have hlen : exC6PlayerBoxes.length = 51 := by
    simp [exC6PlayerBoxes]
  have hget : ∀ i < 51, exC6PlayerBoxes.getD i [] =
      [(1, if i = 50 then Box.mk 0 0 0 2 else Box.mk 0 0 0 1)] := by
    intro i hi
    simp [exC6PlayerBoxes, List.getD, List.getElem?_map, List.getElem?_range, hi]
  have hpyget : ∀ i < 51, pyGet exC6PlayerBoxes i =
      Except.ok [(1, if i = 50 then Box.mk 0 0 0 2 else Box.mk 0 0 0 1)] := by
    intro i hi
    simp [exC6PlayerBoxes, pyGet, List.getElem?_map, List.getElem?_range, hi]
  have hcode : localReferenceHeight exC6PlayerBoxes 0 1 = Except.ok 1 := by
    rw [localReferenceHeight, hlen]
    have hrange : (0 : ℕ) - 20 = 0 := rfl
    have : (List.range' (0 - 20) (min 51 (0 + 50) - (0 - 20))) = List.range 50 := by
      rw [List.range_eq_range']
      norm_num
    rw [this]
    rw [mapM_except_ok (List.range 50) _ (fun _ => (1 : ℚ)) ?_]
    · rw [except_bind_ok]
      apply pyListMax_eq_max?
      rw [show (List.range 50).map (fun _ => (1 : ℚ)) = List.replicate 50 1 by
        simp [List.map_const', List.length_range]]
      rw [show (List.replicate 50 (1 : ℚ)) = 1 :: List.replicate 49 1 from rfl]
      simp [List.max?, foldl_max_replicate]
    · intro i hi
      have hi51 : i < 51 := by
        have := List.mem_range.mp hi
        omega
      have hi50 : i ≠ 50 := by
        have := List.mem_range.mp hi
        omega
      rw [hpyget i hi51, except_bind_ok, if_neg hi50]
      simp [dictGet, List.find?, get_height_of_bbox]
  refine ⟨?_, hcode, by rw [hcode]; simp⟩
  rw [inclusiveWindowMax, hlen]
  have : (List.range' (0 - 20) (min (51 - 1) (0 + 50) + 1 - (0 - 20))) = List.range 51 := by
    rw [List.range_eq_range']
    norm_num
  rw [this]
  rw [mapM_option_ok (List.range 51) _ (fun i => if i = 50 then (2 : ℚ) else 1) ?_]
  · rw [Option.bind_eq_bind, Option.some_bind]
    rw [show (List.range 51).map (fun i => if i = 50 then (2 : ℚ) else 1) =
        List.replicate 50 1 ++ [2] by
      rw [List.range_succ, List.map_append]
      refine congrArg₂ (· ++ ·) ?_ ?_
      · rw [List.map_congr_left (g := fun _ => (1 : ℚ)) (fun i hi => by
          simp only
          rw [if_neg (by have := List.mem_range.mp hi; omega)])]
        simp [List.map_const', List.length_range]
      · simp]
    rw [show List.replicate 50 (1 : ℚ) ++ [2] = 1 :: (List.replicate 49 1 ++ [2]) from rfl]
    simp only [List.max?, List.foldl_append, foldl_max_replicate, List.foldl_cons,
      List.foldl_nil, Option.some.injEq]
    norm_num [max_def]
  · intro i hi
    have hi51 : i < 51 := List.mem_range.mp hi
    rw [hget i hi51]
    by_cases h50 : i = 50
    · subst h50
      simp [dictGet, List.find?, get_height_of_bbox]
    · rw [if_neg h50]
      simp [dictGet, List.find?, get_height_of_bbox, h50]

/-- C6 (corrected, amended claim): for every frame f and every player present
throughout the window, the local reference pixel height the code uses equals
the maximum bounding-box height of that player over the frames from
max(0, f - 20) through min(frame count, f + 50) - 1 inclusive, i.e. the
upper endpoint min(last frame, f + 50) of the original claim is exclusive at
min(frame count, f + 50) and so reaches at most frame f + 49. -/
theorem c6_local_calibration_window (pb : List (Dict Box)) (f pid : ℕ) (m : ℚ)
    (hf : f < pb.length) (h : correctedWindowMax pb f pid = some m) :
    localReferenceHeight pb f pid = Except.ok m := by
  rw [correctedWindowMax] at h
  rw [show min pb.length (f + 50) - 1 + 1 - (f - 20)
      = min pb.length (f + 50) - (f - 20) by omega] at h
  rw [localReferenceHeight]
  cases hM : (List.range' (f - 20) (min pb.length (f + 50) - (f - 20))).mapM
      (fun i => ((pb.getD i []).find? (fun e => e.1 = pid)).map
        (fun e => get_height_of_bbox e.2)) with
  | none => rw [hM] at h; simp at h
  | some hs =>
    rw [hM] at h
    simp only [Option.bind_eq_bind, Option.some_bind] at h
    rw [mapM_option_to_except _ _ _ hs ?_ hM]
    · rw [except_bind_ok]
      exact pyListMax_eq_max? hs m h
    · intro i hi b hb
      have hmem := List.mem_range'_1.mp hi
      have hilen : i < pb.length := by
        rcases hmem with ⟨h1, h2⟩
        have hlo : f - 20 ≤ min pb.length (f + 50) := by omega
        omega
      obtain ⟨e, hfind, hbe⟩ := Option.map_eq_some'.mp hb
      have hpg : pyGet pb i = Except.ok (pb.getD i []) := by
        rw [pyGet]
        rw [List.getD_eq_getElem?_getD, List.getElem?_eq_getElem hilen]
        rfl
      rw [hpg, except_bind_ok]
      rw [dictGet, hfind]
      rw [except_bind_ok, ← hbe]
      rfl

/-- C6 witness: a single-frame sequence with player 1 of bbox height 1
satisfies the hypotheses of the amended window theorem, whose conclusion then
gives the code value 1. -/
theorem c6_local_calibration_window_witness :
    (0 < exC6SmallBoxes.length ∧ correctedWindowMax exC6SmallBoxes 0 1 = some 1) ∧
    localReferenceHeight exC6SmallBoxes 0 1 = Except.ok 1 := by
  have h2 : correctedWindowMax exC6SmallBoxes 0 1 = some 1 := by
    rw [correctedWindowMax]
    simp [exC6SmallBoxes, List.range', List.mapM.loop,
      get_height_of_bbox, List.max?]
  exact ⟨⟨by simp [exC6SmallBoxes], h2⟩,
    c6_local_calibration_window exC6SmallBoxes 0 1 1 (by simp [exC6SmallBoxes]) h2⟩

/-- Helper: getD through a map over List.range. -/
theorem getD_range_map {α : Type} (n t : ℕ) (f : ℕ → α) (d : α) (h : t < n) :
    ((List.range n).map f).getD t d = f t := by
  rw [List.getD_eq_getElem?_getD, List.getElem?_map, List.getElem?_range h]
  rfl

/-- Helper: getD with default none through a map of Option.map. -/
theorem getD_map_option {α β : Type} (l : List (Option α)) (f : α → β) (t : ℕ) :
    (l.map (Option.map f)).getD t none = Option.map f (l.getD t none) := by
  rw [List.getD_eq_getElem?_getD, List.getD_eq_getElem?_getD, List.getElem?_map]
  cases l[t]? <;> rfl

/-- Helper: lastKnownUpto finds the nearest known sample at or before t. -/
theorem lastKnownUpto_eq_some (xs : List (Option ℚ)) (t e : ℕ) (ve : ℚ)
    (he : e ≤ t) (hv : xs.getD e none = some ve)
    (hnone : ∀ j, e < j → j ≤ t → xs.getD j none = none) :
    lastKnownUpto xs t = some (e, ve) := by
  induction t with
  | zero =>
    have he0 : e = 0 := Nat.le_zero.mp he
    subst he0
    simp only [lastKnownUpto]
    rw [hv]
  | succ k ih =>
    by_cases hek : e = k + 1
    · subst hek
      simp only [lastKnownUpto]
      rw [hv]
    · have hek' : e ≤ k := by omega
      simp only [lastKnownUpto]
      rw [hnone (k + 1) (by omega) le_rfl]
      exact ih hek' (fun j hj1 hj2 => hnone j hj1 (by omega))

/-- Helper: lastKnownUpto is none when every sample up to t is missing. -/
theorem lastKnownUpto_eq_none (xs : List (Option ℚ)) (t : ℕ)
    (hnone : ∀ j, j ≤ t → xs.getD j none = none) :
    lastKnownUpto xs t = none := by
  induction t with
  | zero =>
    simp only [lastKnownUpto]
    rw [hnone 0 le_rfl]
  | succ k ih =>
    simp only [lastKnownUpto]
    rw [hnone (k + 1) le_rfl]
    exact ih (fun j hj => hnone j (by omega))

/-- Helper: firstKnownFrom finds the nearest known sample at or after s. -/
theorem firstKnownFrom_eq_some (xs : List (Option ℚ)) (l : ℕ) (vl : ℚ)
    (hl : l < xs.length) (hv : xs.getD l none = some vl) :
    ∀ n s, l - s = n → s ≤ l → (∀ j, s ≤ j → j < l → xs.getD j none = none) →
    firstKnownFrom xs s = some (l, vl) := by
  intro n
  induction n with
  | zero =>
    intro s h0 hsl hnone
    have hseq : s = l := by omega
    subst hseq
    unfold firstKnownFrom
    rw [dif_pos hl, hv]
  | succ k ih =>
    intro s hk hsl hnone
    have hs : s < l := by omega
    unfold firstKnownFrom
    rw [dif_pos (by omega : s < xs.length), hnone s le_rfl hs]
    exact ih (s + 1) (by omega) (by omega) (fun j hj1 hj2 => hnone j (by omega) hj2)

/-- Helper: an interpolated-then-backfilled channel keeps known samples. -/
theorem channel_known (xs : List (Option ℚ)) (t : ℕ) (v : ℚ)
    (ht : t < xs.length) (hv : xs.getD t none = some v) :
    (pdBfill (pdInterpolate xs)).getD t none = some v := by
  have hlen1 : (pdInterpolate xs).length = xs.length := by
    simp [pdInterpolate]
  have hIA : (pdInterpolate xs).getD t none = some v := by
    rw [pdInterpolate, getD_range_map _ _ _ _ ht]
    simp only [interpAt]
    rw [hv]
  rw [pdBfill, getD_range_map _ _ _ _ (by rw [hlen1]; exact ht)]
  simp only [bfillAt]
  rw [hIA]

/-- Helper: an interpolated-then-backfilled channel resolves an interior gap
to the linear interpolation between the nearest earlier and later known
samples. -/
theorem channel_interior (xs : List (Option ℚ)) (t e l : ℕ) (ve vl : ℚ)
    (hmiss : xs.getD t none = none) (hel : e < t) (htl : t < l)
    (hll : l < xs.length) (hve : xs.getD e none = some ve)
    (hvl : xs.getD l none = some vl)
    (hbet : ∀ j, e < j → j < l → j ≠ t → xs.getD j none = none) :
    (pdBfill (pdInterpolate xs)).getD t none =
      some (ve + (vl - ve) * ((t : ℚ) - (e : ℚ)) / ((l : ℚ) - (e : ℚ))) := by
  have ht : t < xs.length := by omega
  have hlen1 : (pdInterpolate xs).length = xs.length := by
    simp [pdInterpolate]
  have hIA : (pdInterpolate xs).getD t none =
      some (ve + (vl - ve) * ((t : ℚ) - (e : ℚ)) / ((l : ℚ) - (e : ℚ))) := by
    rw [pdInterpolate, getD_range_map _ _ _ _ ht]
    simp only [interpAt]
    rw [hmiss,
      lastKnownUpto_eq_some xs t e ve (by omega) hve
        (fun j hj1 hj2 => by
          by_cases hjt : j = t
          · subst hjt; exact hmiss
          · exact hbet j hj1 (by omega) hjt),
      firstKnownFrom_eq_some xs l vl hll hvl (l - (t + 1)) (t + 1) rfl (by omega)
        (fun j hj1 hj2 => hbet j (by omega) hj2 (by omega))]
  rw [pdBfill, getD_range_map _ _ _ _ (by rw [hlen1]; exact ht)]
  simp only [bfillAt]
  rw [hIA]

/-- Helper: an interpolated-then-backfilled channel resolves a leading gap to
the nearest later known sample. -/
theorem channel_leading (xs : List (Option ℚ)) (t l : ℕ) (vl : ℚ)
    (htl : t < l) (hll : l < xs.length) (hvl : xs.getD l none = some vl)
    (hbefore : ∀ j, j < l → xs.getD j none = none) :
    (pdBfill (pdInterpolate xs)).getD t none = some vl := by
  have ht : t < xs.length := by omega
  have hlen1 : (pdInterpolate xs).length = xs.length := by
    simp [pdInterpolate]
  have hIAnone : ∀ j, j < l → (pdInterpolate xs).getD j none = none := by
    intro j hj
    rw [pdInterpolate, getD_range_map _ _ _ _ (by omega)]
    simp only [interpAt]
    rw [hbefore j hj, lastKnownUpto_eq_none xs j (fun i hi => hbefore i (by omega))]
  have hIAl : (pdInterpolate xs).getD l none = some vl := by
    rw [pdInterpolate, getD_range_map _ _ _ _ hll]
    simp only [interpAt]
    rw [hvl]
  rw [pdBfill, getD_range_map _ _ _ _ (by rw [hlen1]; exact ht)]
  simp only [bfillAt]
  rw [hIAnone t htl,
    firstKnownFrom_eq_some (pdInterpolate xs) l vl (by rw [hlen1]; exact hll) hIAl
      (l - (t + 1)) (t + 1) rfl (by omega) (fun j hj1 hj2 => hIAnone j hj2)]
  rfl

/-- Helper: evaluation of the interpolation example with an interior gap. -/
theorem interpolate_ex1_eval :
    interpolate_ball_positions [some (Box.mk 0 0 2 2), none, some (Box.mk 4 4 6 6)] =
      [some (Box.mk 0 0 2 2), some (Box.mk 2 2 4 4), some (Box.mk 4 4 6 6)] := by
  have hbet : ∀ j, 0 < j → j < 2 → j ≠ 1 → ([some (0:ℚ), none, some 4].getD j none) = none := by
    intro j h1 h2 h3
    omega
  have hbet' : ∀ j, 0 < j → j < 2 → j ≠ 1 → ([some (2:ℚ), none, some 6].getD j none) = none := by
    intro j h1 h2 h3
    omega
  have h04 : ∀ v : ℚ, (pdBfill (pdInterpolate [some (v:ℚ), none, some (v+4)])).getD 0 none
      = some v := fun v => channel_known _ 0 v (by norm_num) rfl
  have h24 : ∀ v : ℚ, (pdBfill (pdInterpolate [some (v:ℚ), none, some (v+4)])).getD 2 none
      = some (v+4) := fun v => channel_known _ 2 (v+4) (by norm_num) rfl
  have h14 : ∀ v : ℚ, (pdBfill (pdInterpolate [some (v:ℚ), none, some (v+4)])).getD 1 none
      = some (v + ((v+4) - v) * ((1 : ℚ) - (0 : ℕ)) / (((2:ℕ) : ℚ) - (0 : ℕ))) :=
    fun v => channel_interior [some v, none, some (v+4)] 1 0 2 v (v+4) rfl
      (by omega) (by omega) (by norm_num) rfl rfl
      (fun j h1 h2 h3 => by omega)
  have e1 : ([some (Box.mk 0 0 2 2), none, some (Box.mk 4 4 6 6)].map (Option.map Box.x1))
      = [some (0:ℚ), none, some (0+4)] := by norm_num
  have e2 : ([some (Box.mk 0 0 2 2), none, some (Box.mk 4 4 6 6)].map (Option.map Box.y1))
      = [some (0:ℚ), none, some (0+4)] := by norm_num
  have e3 : ([some (Box.mk 0 0 2 2), none, some (Box.mk 4 4 6 6)].map (Option.map Box.x2))
      = [some (2:ℚ), none, some (2+4)] := by norm_num
  have e4 : ([some (Box.mk 0 0 2 2), none, some (Box.mk 4 4 6 6)].map (Option.map Box.y2))
      = [some (2:ℚ), none, some (2+4)] := by norm_num
  simp only [interpolate_ball_positions, e1, e2, e3, e4]
  rw [show ([some (Box.mk 0 0 2 2), none, some (Box.mk 4 4 6 6)] :
      List (Option Box)).length = 3 from rfl]
  rw [show List.range 3 = [0, 1, 2] from rfl]
  simp only [List.map_cons, List.map_nil]
  rw [h04 0, h04 2, h14 0, h14 2, h24 0, h24 2]
  norm_num

/-- Helper: evaluation of the interpolation example with a leading gap. -/
theorem interpolate_ex2_eval :
    interpolate_ball_positions [none, some (Box.mk 4 4 6 6)] =
      [some (Box.mk 4 4 6 6), some (Box.mk 4 4 6 6)] := by
  have h0 : ∀ v : ℚ, (pdBfill (pdInterpolate [none, some (v:ℚ)])).getD 0 none = some v :=
    fun v => channel_leading [none, some v] 0 1 v (by omega) (by norm_num) rfl
      (fun j hj => by
        have hj0 : j = 0 := by omega
        subst hj0
        rfl)
  have h1 : ∀ v : ℚ, (pdBfill (pdInterpolate [none, some (v:ℚ)])).getD 1 none = some v :=
    fun v => channel_known _ 1 v (by norm_num) rfl
  have e1 : ([none, some (Box.mk 4 4 6 6)].map (Option.map Box.x1))
      = [none, some (4:ℚ)] := by norm_num
  have e2 : ([none, some (Box.mk 4 4 6 6)].map (Option.map Box.y1))
      = [none, some (4:ℚ)] := by norm_num
  have e3 : ([none, some (Box.mk 4 4 6 6)].map (Option.map Box.x2))
      = [none, some (6:ℚ)] := by norm_num
  have e4 : ([none, some (Box.mk 4 4 6 6)].map (Option.map Box.y2))
      = [none, some (6:ℚ)] := by norm_num
  simp only [interpolate_ball_positions, e1, e2, e3, e4]
  rw [show ([none, some (Box.mk 4 4 6 6)] : List (Option Box)).length = 2 from rfl]
  rw [show List.range 2 = [0, 1] from rfl]
  simp only [List.map_cons, List.map_nil]
  rw [h0 4, h0 6, h1 4, h1 6]

/-- C7 (confirmed): ball interpolation.  A frame with a detection is kept; a
missing frame strictly between its nearest earlier known frame e and nearest
later known frame l resolves, in each of the four box coordinates, to the
linear interpolation between those samples; a missing frame before every
known frame resolves to the nearest later known box (backfill); and the two
concrete examples of the claim evaluate as stated: the gap in
[[0,0,2,2], missing, [4,4,6,6]] resolves to [2,2,4,4], and the leading gap
in [missing, [4,4,6,6]] resolves to frame 1's box. -/
theorem c7_ball_interpolation (bps : List (Option Box)) (t e l : ℕ) (b be bl : Box) :
    (t < bps.length → bps.getD t none = some b →
      (interpolate_ball_positions bps).getD t none = some b) ∧
    (bps.getD t none = none → e < t → t < l → l < bps.length →
      bps.getD e none = some be → bps.getD l none = some bl →
      (∀ j, e < j → j < l → j ≠ t → bps.getD j none = none) →
      (interpolate_ball_positions bps).getD t none = some (Box.mk
        (be.x1 + (bl.x1 - be.x1) * ((t : ℚ) - (e : ℚ)) / ((l : ℚ) - (e : ℚ)))
        (be.y1 + (bl.y1 - be.y1) * ((t : ℚ) - (e : ℚ)) / ((l : ℚ) - (e : ℚ)))
        (be.x2 + (bl.x2 - be.x2) * ((t : ℚ) - (e : ℚ)) / ((l : ℚ) - (e : ℚ)))
        (be.y2 + (bl.y2 - be.y2) * ((t : ℚ) - (e : ℚ)) / ((l : ℚ) - (e : ℚ))))) ∧
    (t < l → l < bps.length → bps.getD l none = some bl →
      (∀ j, j < l → bps.getD j none = none) →
      (interpolate_ball_positions bps).getD t none = some bl) ∧
    interpolate_ball_positions [some (Box.mk 0 0 2 2), none, some (Box.mk 4 4 6 6)] =
      [some (Box.mk 0 0 2 2), some (Box.mk 2 2 4 4), some (Box.mk 4 4 6 6)] ∧
    interpolate_ball_positions [none, some (Box.mk 4 4 6 6)] =
      [some (Box.mk 4 4 6 6), some (Box.mk 4 4 6 6)] := by
  refine ⟨?_, ?_, ?_, interpolate_ex1_eval, interpolate_ex2_eval⟩
  · intro ht hb
    simp only [interpolate_ball_positions]
    rw [getD_range_map _ _ _ _ ht]
    rw [channel_known (bps.map (Option.map Box.x1)) t b.x1 (by simpa using ht)
        (by rw [getD_map_option, hb]; rfl),
      channel_known (bps.map (Option.map Box.y1)) t b.y1 (by simpa using ht)
        (by rw [getD_map_option, hb]; rfl),
      channel_known (bps.map (Option.map Box.x2)) t b.x2 (by simpa using ht)
        (by rw [getD_map_option, hb]; rfl),
      channel_known (bps.map (Option.map Box.y2)) t b.y2 (by simpa using ht)
        (by rw [getD_map_option, hb]; rfl)]
  · intro hmiss hel htl hll hbe hbl hbet
    have ht : t < bps.length := by omega
    simp only [interpolate_ball_positions]
    rw [getD_range_map _ _ _ _ ht]
    rw [channel_interior (bps.map (Option.map Box.x1)) t e l be.x1 bl.x1
        (by rw [getD_map_option, hmiss]; rfl) hel htl (by simpa using hll)
        (by rw [getD_map_option, hbe]; rfl) (by rw [getD_map_option, hbl]; rfl)
        (fun j h1 h2 h3 => by rw [getD_map_option, hbet j h1 h2 h3]; rfl),
      channel_interior (bps.map (Option.map Box.y1)) t e l be.y1 bl.y1
        (by rw [getD_map_option, hmiss]; rfl) hel htl (by simpa using hll)
        (by rw [getD_map_option, hbe]; rfl) (by rw [getD_map_option, hbl]; rfl)
        (fun j h1 h2 h3 => by rw [getD_map_option, hbet j h1 h2 h3]; rfl),
      channel_interior (bps.map (Option.map Box.x2)) t e l be.x2 bl.x2
        (by rw [getD_map_option, hmiss]; rfl) hel htl (by simpa using hll)
        (by rw [getD_map_option, hbe]; rfl) (by rw [getD_map_option, hbl]; rfl)
        (fun j h1 h2 h3 => by rw [getD_map_option, hbet j h1 h2 h3]; rfl),
      channel_interior (bps.map (Option.map Box.y2)) t e l be.y2 bl.y2
        (by rw [getD_map_option, hmiss]; rfl) hel htl (by simpa using hll)
        (by rw [getD_map_option, hbe]; rfl) (by rw [getD_map_option, hbl]; rfl)
        (fun j h1 h2 h3 => by rw [getD_map_option, hbet j h1 h2 h3]; rfl)]
  · intro htl hll hbl hbefore
    have ht : t < bps.length := by omega
    simp only [interpolate_ball_positions]
    rw [getD_range_map _ _ _ _ ht]
    rw [channel_leading (bps.map (Option.map Box.x1)) t l bl.x1 htl (by simpa using hll)
        (by rw [getD_map_option, hbl]; rfl)
        (fun j hj => by rw [getD_map_option, hbefore j hj]; rfl),
      channel_leading (bps.map (Option.map Box.y1)) t l bl.y1 htl (by simpa using hll)
        (by rw [getD_map_option, hbl]; rfl)
        (fun j hj => by rw [getD_map_option, hbefore j hj]; rfl),
      channel_leading (bps.map (Option.map Box.x2)) t l bl.x2 htl (by simpa using hll)
        (by rw [getD_map_option, hbl]; rfl)
        (fun j hj => by rw [getD_map_option, hbefore j hj]; rfl),
      channel_leading (bps.map (Option.map Box.y2)) t l bl.y2 htl (by simpa using hll)
        (by rw [getD_map_option, hbl]; rfl)
        (fun j hj => by rw [getD_map_option, hbefore j hj]; rfl)]

/-- C7 witness: the interior-gap example instantiates the interpolation
theorem with its hypotheses discharged at frame 1 between known frames 0 and
2, and the resulting middle box simplifies to (2, 2, 4, 4). -/
theorem c7_ball_interpolation_witness :
    (([some (Box.mk 0 0 2 2), none, some (Box.mk 4 4 6 6)] :
        List (Option Box)).getD 1 none = none ∧
      (0 : ℕ) < 1 ∧ (1 : ℕ) < 2 ∧
      (2 : ℕ) < ([some (Box.mk 0 0 2 2), none, some (Box.mk 4 4 6 6)] :
        List (Option Box)).length) ∧
    (interpolate_ball_positions [some (Box.mk 0 0 2 2), none, some (Box.mk 4 4 6 6)]).getD
      1 none = some (Box.mk 2 2 4 4) := by
  refine ⟨⟨rfl, by omega, by omega, by norm_num⟩, ?_⟩
  have h := (c7_ball_interpolation [some (Box.mk 0 0 2 2), none, some (Box.mk 4 4 6 6)]
    1 0 2 (Box.mk 0 0 2 2) (Box.mk 0 0 2 2) (Box.mk 4 4 6 6)).2.1
    rfl (by omega) (by omega) (by norm_num) rfl rfl
    (fun j h1 h2 h3 => by omega)
  rw [h]
  norm_num

/-- Helper: reading one flag of a fold that conditionally sets single indices
to true, starting from any flag list. -/
theorem foldl_condSet_getD (f : ℕ → Bool) (idxs : List ℕ) :
    ∀ (init : List Bool) (j : ℕ), j < init.length →
    ((idxs.foldl (fun marks i => if f i then marks.set i true else marks) init).getD j false)
      = (init.getD j false || (decide (j ∈ idxs) && f j)) := by
  induction idxs with
  | nil =>
    intro init j hj
    simp
  | cons a rest ih =>
    intro init j hj
    rw [List.foldl_cons]
    by_cases hfa : f a = true
    · rw [if_pos hfa, ih (init.set a true) j (by simpa using hj)]
      by_cases hja : j = a
      · subst hja
        rw [List.getD_eq_getElem?_getD, List.getElem?_set_self hj]
        simp [hfa]
      · rw [List.getD_eq_getElem?_getD, List.getElem?_set_ne (fun h => hja h.symm),
          ← List.getD_eq_getElem?_getD]
        simp [List.mem_cons, hja]
    · rw [if_neg hfa, ih init j hj]
      by_cases hja : j = a
      · subst hja
        simp [List.mem_cons, hfa]
      · simp [List.mem_cons, hja]

/-- Helper: a conditional-increment fold counts the satisfying elements. -/
theorem foldl_if_count (p : ℕ → Prop) [DecidablePred p] (l : List ℕ) :
    ∀ acc : ℕ, (l.foldl (fun cnt cf => if p cf then cnt + 1 else cnt) acc)
      = acc + l.countP (fun cf => decide (p cf)) := by
  induction l with
  | nil =>
    intro acc
    simp
  | cons a t ih =>
    intro acc
    rw [List.foldl_cons, List.countP_cons]
    by_cases hpa : p a
    · rw [if_pos hpa, ih]
      simp [hpa]
      omega
    · rw [if_neg hpa, ih]
      simp [hpa]

/-- Helper: under a strict sign reversal at i, the inner confirmation count
equals the number of lookahead frames whose delta has the post-reversal
sign. -/
theorem change_count_eq_countP (bps : List Box) (i : ℕ)
    (hrev : (0 < delta_y bps i ∧ delta_y bps (i + 1) < 0) ∨
      (delta_y bps i < 0 ∧ 0 < delta_y bps (i + 1))) :
    change_count bps i = (List.range' (i + 1) 30).countP
      (fun cf => decide ((0 < delta_y bps i ∧ delta_y bps cf < 0) ∨
        (delta_y bps i < 0 ∧ 0 < delta_y bps cf))) := by
  simp only [change_count]
  rw [List.foldl_ext _
    (fun (cnt cf : ℕ) =>
      if (0 < delta_y bps i ∧ delta_y bps cf < 0) ∨
          (delta_y bps i < 0 ∧ 0 < delta_y bps cf) then cnt + 1 else cnt)
    0
    (fun cnt cf _ => by
      beta_reduce
      rcases hrev with ⟨hp, hq⟩ | ⟨hp, hq⟩
      · have hni : ¬ delta_y bps i < 0 := lt_asymm hp
        by_cases hcf : delta_y bps cf < 0
        · rw [if_pos ⟨⟨hp, hq⟩, hp, hcf⟩, if_pos (Or.inl ⟨hp, hcf⟩)]
        · rw [if_neg (fun h => hcf h.2.2), if_neg (fun h => hni h.1.1),
            if_neg (fun h => h.elim (fun ha => hcf ha.2) (fun hb => hni hb.1))]
      · have hni : ¬ 0 < delta_y bps i := lt_asymm hp
        by_cases hcf : 0 < delta_y bps cf
        · rw [if_neg (fun h => hni h.1.1), if_pos ⟨⟨hp, hq⟩, hp, hcf⟩,
            if_pos (Or.inr ⟨hp, hcf⟩)]
        · rw [if_neg (fun h => hni h.1.1), if_neg (fun h => hcf h.2.2),
            if_neg (fun h => h.elim (fun ha => hni ha.1) (fun hb => hcf hb.2))])]
  exact (foldl_if_count
    (fun cf => (0 < delta_y bps i ∧ delta_y bps cf < 0) ∨
      (delta_y bps i < 0 ∧ 0 < delta_y bps cf))
    (List.range' (i + 1) 30) 0).trans (Nat.zero_add _)

/-- C5 (confirmed): shot detection rule.  For every interpolated trajectory
and candidate frame i with 1 <= i <= length - 1 - 30, the detector flags i if
and only if delta(i) and delta(i + 1) have strictly opposite signs and at
least 25 of the 30 lookahead frames i+1 .. i+30 have delta of the sign that
followed the reversal (where delta is the first difference of the trailing
5-sample rolling mean of the vertical midpoint). -/
theorem c5_shot_detection (bps : List Box) (i : ℕ)
    (h1 : 1 ≤ i) (h2 : i + 31 ≤ bps.length) :
    i ∈ get_ball_shot_frames bps ↔
      (((0 < delta_y bps i ∧ delta_y bps (i + 1) < 0) ∨
        (delta_y bps i < 0 ∧ 0 < delta_y bps (i + 1))) ∧
       25 ≤ (List.range' (i + 1) 30).countP
         (fun cf => decide ((0 < delta_y bps i ∧ delta_y bps cf < 0) ∨
           (delta_y bps i < 0 ∧ 0 < delta_y bps cf)))) := by
  have hpt : ∀ (marks : List Bool) (j : ℕ),
      (if (0 < delta_y bps j ∧ delta_y bps (j + 1) < 0) ∨
          (delta_y bps j < 0 ∧ 0 < delta_y bps (j + 1)) then
        (if 25 - 1 < change_count bps j then marks.set j true else marks)
      else marks)
      = (if (fun j => decide ((((0 < delta_y bps j ∧ delta_y bps (j + 1) < 0) ∨
            (delta_y bps j < 0 ∧ 0 < delta_y bps (j + 1))) ∧
            25 - 1 < change_count bps j))) j = true
         then marks.set j true else marks) := by
    intro marks j
    by_cases hrev : (0 < delta_y bps j ∧ delta_y bps (j + 1) < 0) ∨
        (delta_y bps j < 0 ∧ 0 < delta_y bps (j + 1))
    · rw [if_pos hrev]
      by_cases hcc : 25 - 1 < change_count bps j
      · rw [if_pos hcc, if_pos (by simpa using ⟨hrev, hcc⟩)]
      · rw [if_neg hcc, if_neg (by simp [hcc])]
    · rw [if_neg hrev, if_neg (by simp [hrev])]
  have hmarks : ballHitMarks bps =
      (List.range' 1 (bps.length - 30 - 1)).foldl
        (fun marks j =>
          if (fun j => decide ((((0 < delta_y bps j ∧ delta_y bps (j + 1) < 0) ∨
              (delta_y bps j < 0 ∧ 0 < delta_y bps (j + 1))) ∧
              25 - 1 < change_count bps j))) j = true
          then marks.set j true else marks)
        (List.replicate bps.length false) := by
    rw [ballHitMarks]
    exact List.foldl_ext _ _ _ (fun marks j _ => hpt marks j)
  have hreplen : i < (List.replicate bps.length false).length := by
    simp
    omega
  have hget := foldl_condSet_getD
    (fun j => decide ((((0 < delta_y bps j ∧ delta_y bps (j + 1) < 0) ∨
      (delta_y bps j < 0 ∧ 0 < delta_y bps (j + 1))) ∧
      25 - 1 < change_count bps j)))
    (List.range' 1 (bps.length - 30 - 1)) (List.replicate bps.length false) i hreplen
  have hrepD : (List.replicate bps.length false).getD i false = false := by
    rw [List.getD_eq_getElem?_getD, List.getElem?_replicate]
    by_cases hi : i < bps.length
    · rw [if_pos hi]
      rfl
    · rw [if_neg hi]
      rfl
  have hmem : decide (i ∈ List.range' 1 (bps.length - 30 - 1)) = true := by
    rw [decide_eq_true_eq, List.mem_range'_1]
    omega
  rw [get_ball_shot_frames, List.mem_filter]
  rw [hmarks]
  rw [show ((List.range' 1 (bps.length - 30 - 1)).foldl
        (fun marks j =>
          if (fun j => decide ((((0 < delta_y bps j ∧ delta_y bps (j + 1) < 0) ∨
              (delta_y bps j < 0 ∧ 0 < delta_y bps (j + 1))) ∧
              25 - 1 < change_count bps j))) j = true
          then marks.set j true else marks)
        (List.replicate bps.length false)).getD i false
      = decide ((((0 < delta_y bps i ∧ delta_y bps (i + 1) < 0) ∨
          (delta_y bps i < 0 ∧ 0 < delta_y bps (i + 1))) ∧
          25 - 1 < change_count bps i)) by
    rw [hget, hrepD, hmem]
    simp]
  constructor
  · rintro ⟨_, hp⟩
    rw [decide_eq_true_eq] at hp
    obtain ⟨hrev, hcc⟩ := hp
    refine ⟨hrev, ?_⟩
    rw [← change_count_eq_countP bps i hrev]
    omega
  · rintro ⟨hrev, hcp⟩
    refine ⟨List.mem_range.mpr (by omega), ?_⟩
    rw [decide_eq_true_eq]
    refine ⟨hrev, ?_⟩
    rw [change_count_eq_countP bps i hrev]
    omega

/-- C5 witness: a concrete 40-frame trajectory satisfies the scan-range
hypotheses at candidate frame 1, giving the flag-iff-rule equivalence
there. -/
theorem c5_shot_detection_witness :
    ((1 : ℕ) ≤ 1 ∧ 1 + 31 ≤ exC5Traj.length) ∧
    (1 ∈ get_ball_shot_frames exC5Traj ↔
      (((0 < delta_y exC5Traj 1 ∧ delta_y exC5Traj (1 + 1) < 0) ∨
        (delta_y exC5Traj 1 < 0 ∧ 0 < delta_y exC5Traj (1 + 1))) ∧
       25 ≤ (List.range' (1 + 1) 30).countP
         (fun cf => decide ((0 < delta_y exC5Traj 1 ∧ delta_y exC5Traj cf < 0) ∨
           (delta_y exC5Traj 1 < 0 ∧ 0 < delta_y exC5Traj cf))))) :=
  ⟨⟨le_rfl, by simp [exC5Traj]⟩,
    c5_shot_detection exC5Traj 1 le_rfl (by simp [exC5Traj])⟩

/-- Helper: a foldlM in the Except monad with everywhere-successful steps is
the plain fold. -/
theorem foldlM_except_ok {α β : Type} (l : List α) (f : β → α → β)
    (g : β → α → Except PyErr β)
    (hg : ∀ b : β, ∀ a ∈ l, g b a = Except.ok (f b a)) :
    ∀ b0 : β, l.foldlM g b0 = Except.ok (l.foldl f b0) := by
  induction l with
  | nil => intro b0; rfl
  | cons a t ih =>
    intro b0
    rw [List.foldlM_cons, hg b0 a (List.mem_cons_self a t), except_bind_ok,
      List.foldl_cons]
    exact ih (fun b x hx => hg b x (List.mem_cons_of_mem a hx)) (f b0 a)

/-- Helper: on an even-length flat keypoint list every lookup of the
minimum-distance loop succeeds, and the result is the total fold. -/
theorem min_keypoint_distance_ok (kps : List ℚ) (c : Point)
    (heven : kps.length % 2 = 0) :
    min_keypoint_distance kps c = Except.ok (minKeypointDistanceT kps c) := by
  rw [min_keypoint_distance, minKeypointDistanceT]
  apply foldlM_except_ok
  intro b j hj
  have hjlt := (List.mem_range'_1.mp hj).2
  have h1 : 2 * j < kps.length := by omega
  have h2 : 2 * j + 1 < kps.length := by omega
  have e1 : pyGet kps (2 * j) = Except.ok (kps.getD (2 * j) 0) := by
    rw [pyGet, List.getD_eq_getElem?_getD, List.getElem?_eq_getElem h1]
    rfl
  have e2 : pyGet kps (2 * j + 1) = Except.ok (kps.getD (2 * j + 1) 0) := by
    rw [pyGet, List.getD_eq_getElem?_getD, List.getElem?_eq_getElem h2]
    rfl
  rw [e1, except_bind_ok, e2, except_bind_ok]
  by_cases hd : ((measure_distance c (kps.getD (2 * j) 0, kps.getD (2 * j + 1) 0) : ℝ) :
      WithTop ℝ) < b
  · rw [if_pos hd, if_pos hd]
    rfl
  · rw [if_neg hd, if_neg hd]
    rfl

/-- C8 (confirmed): player selection.  With a valid even-length keypoint list
and distinct track ids, choose_players fails with the index error realizing
InsufficientDetections when fewer than two entities are detected in the
frame, and with at least two entities it returns two distinct track ids whose
box centers have the smallest minimum Euclidean distance to any court
keypoint (the minimum folds from the float infinity top element, so the
comparisons live in WithTop of the reals). -/
theorem c8_player_selection (kps : List ℚ) (pd : Dict Box)
    (heven : kps.length % 2 = 0) (hnodup : (pd.map Prod.fst).Nodup) :
    (pd.length < 2 → choose_players kps pd = Except.error PyErr.indexError) ∧
    (2 ≤ pd.length → ∃ a b, ∃ ba bb : Box,
      choose_players kps pd = Except.ok [a, b] ∧ a ≠ b ∧
      (a, ba) ∈ pd ∧ (b, bb) ∈ pd ∧
      minKeypointDistanceT kps (get_center_of_bbox ba) ≤
        minKeypointDistanceT kps (get_center_of_bbox bb) ∧
      (∀ e ∈ pd, e.1 ≠ a → e.1 ≠ b →
        minKeypointDistanceT kps (get_center_of_bbox ba) ≤
          minKeypointDistanceT kps (get_center_of_bbox e.2) ∧
        minKeypointDistanceT kps (get_center_of_bbox bb) ≤
          minKeypointDistanceT kps (get_center_of_bbox e.2))) := by
  have hdist : pd.mapM (fun e => do
      let player_center := get_center_of_bbox e.2
      let md ← min_keypoint_distance kps player_center
      pure (e.1, md)) =
      Except.ok (pd.map (fun e =>
        (e.1, minKeypointDistanceT kps (get_center_of_bbox e.2)))) := by
    apply mapM_except_ok
    intro e _
    simp only [min_keypoint_distance_ok kps (get_center_of_bbox e.2) heven, except_bind_ok]
    rfl
  have htrans : ∀ (a b c : ℕ × WithTop ℝ),
      (fun a b => decide (a.2 ≤ b.2)) a b = true →
      (fun a b => decide (a.2 ≤ b.2)) b c = true →
      (fun a b => decide (a.2 ≤ b.2)) a c = true := by
    intro a b c hab hbc
    simp only [decide_eq_true_eq] at hab hbc ⊢
    exact le_trans hab hbc
  have htotal : ∀ (a b : ℕ × WithTop ℝ),
      ((fun a b => decide (a.2 ≤ b.2)) a b || (fun a b => decide (a.2 ≤ b.2)) b a) = true := by
    intro a b
    simpa only [Bool.or_eq_true, decide_eq_true_eq] using le_total a.2 b.2
  have hperm := List.mergeSort_perm
    (pd.map (fun e => (e.1, minKeypointDistanceT kps (get_center_of_bbox e.2))))
    (fun a b => decide (a.2 ≤ b.2))
  have hsorted := List.sorted_mergeSort htrans htotal
    (pd.map (fun e => (e.1, minKeypointDistanceT kps (get_center_of_bbox e.2))))
  have hlen : ((pd.map (fun e =>
      (e.1, minKeypointDistanceT kps (get_center_of_bbox e.2)))).mergeSort
      (fun a b => decide (a.2 ≤ b.2))).length = pd.length := by
    rw [hperm.length_eq, List.length_map]
  cases hms : (pd.map (fun e =>
      (e.1, minKeypointDistanceT kps (get_center_of_bbox e.2)))).mergeSort
      (fun a b => decide (a.2 ≤ b.2)) with
  | nil =>
    constructor
    · intro _
      simp only [choose_players, hdist, except_bind_ok, hms]
      rfl
    · intro h2
      rw [hms] at hlen
      simp at hlen
      omega
  | cons d0 tail =>
    cases tail with
    | nil =>
      constructor
      · intro _
        simp only [choose_players, hdist, except_bind_ok, hms]
        simp only [pyGet, List.getElem?_nil, List.getElem?_cons_zero,
          List.getElem?_cons_succ, except_bind_ok, except_bind_error]
      · intro h2
        rw [hms] at hlen
        simp at hlen
        omega
    | cons d1 rest =>
      rw [hms] at hperm hsorted hlen
      constructor
      · intro hlt
        simp at hlen
        omega
      · intro _
        obtain ⟨e0, he0pd, he0eq⟩ := List.mem_map.mp
          (hperm.mem_iff.mp (List.mem_cons_self d0 (d1 :: rest)))
        obtain ⟨e1, he1pd, he1eq⟩ := List.mem_map.mp
          (hperm.mem_iff.mp (List.mem_cons_of_mem d0 (List.mem_cons_self d1 rest)))
        have hfstnodup : ((d0 :: d1 :: rest).map Prod.fst).Nodup := by
          have hmapmap : (pd.map (fun e =>
              (e.1, minKeypointDistanceT kps (get_center_of_bbox e.2)))).map Prod.fst
              = pd.map Prod.fst := by
            rw [List.map_map]
            rfl
          exact ((hperm.map Prod.fst).nodup_iff).mpr (hmapmap ▸ hnodup)
        have hne : d0.1 ≠ d1.1 := by
          simp only [List.map_cons, List.nodup_cons, List.mem_cons] at hfstnodup
          exact fun h => hfstnodup.1 (Or.inl h)
        obtain ⟨hd0le, hsorted1⟩ := List.pairwise_cons.mp hsorted
        obtain ⟨hd1le, _⟩ := List.pairwise_cons.mp hsorted1
        refine ⟨d0.1, d1.1, e0.2, e1.2, ?_, hne, ?_, ?_, ?_, ?_⟩
        · simp only [choose_players, hdist, except_bind_ok, hms]
          simp only [pyGet, List.getElem?_cons_zero, List.getElem?_cons_succ,
            except_bind_ok]
          rfl
        · rw [show (d0.1, e0.2) = e0 by rw [← he0eq]]
          exact he0pd
        · rw [show (d1.1, e1.2) = e1 by rw [← he1eq]]
          exact he1pd
        · have h01 := hd0le d1 (List.mem_cons_self d1 rest)
          rw [decide_eq_true_eq] at h01
          have hv0 : d0.2 = minKeypointDistanceT kps (get_center_of_bbox e0.2) := by
            rw [← he0eq]
          have hv1 : d1.2 = minKeypointDistanceT kps (get_center_of_bbox e1.2) := by
            rw [← he1eq]
          rw [← hv0, ← hv1]
          exact h01
        · intro e hepd hea heb
          have hemem : (e.1, minKeypointDistanceT kps (get_center_of_bbox e.2)) ∈
              d0 :: d1 :: rest :=
            hperm.symm.mem_iff.mp (List.mem_map.mpr ⟨e, hepd, rfl⟩)
          have hv0 : d0.2 = minKeypointDistanceT kps (get_center_of_bbox e0.2) := by
            rw [← he0eq]
          have hv1 : d1.2 = minKeypointDistanceT kps (get_center_of_bbox e1.2) := by
            rw [← he1eq]
          rcases List.mem_cons.mp hemem with hcase | hcase
          · exfalso
            apply hea
            rw [← hcase]
          · rcases List.mem_cons.mp hcase with hcase2 | hcase2
            · exfalso
              apply heb
              rw [← hcase2]
            · have hle1 := hd1le _ hcase2
              have hle0 := hd0le _ (List.mem_cons_of_mem d1 hcase2)
              rw [decide_eq_true_eq] at hle1 hle0
              constructor
              · rw [← hv0]
                exact hle0
              · rw [← hv1]
                exact hle1

/-- C8 witness: one keypoint pair and two detected players discharge the
even-length and distinct-id hypotheses; the selector then returns two
minimal-distance ids and would fail with IndexError on fewer detections. -/
theorem c8_player_selection_witness :
    (([(0 : ℚ), 0] : List ℚ).length % 2 = 0 ∧
      (([(3, Box.mk 0 0 2 2), (5, Box.mk 10 10 12 12)] : Dict Box).map Prod.fst).Nodup) ∧
    (2 ≤ ([(3, Box.mk 0 0 2 2), (5, Box.mk 10 10 12 12)] : Dict Box).length →
      ∃ a b, ∃ ba bb : Box,
      choose_players [(0 : ℚ), 0] [(3, Box.mk 0 0 2 2), (5, Box.mk 10 10 12 12)] =
        Except.ok [a, b] ∧ a ≠ b ∧
      (a, ba) ∈ ([(3, Box.mk 0 0 2 2), (5, Box.mk 10 10 12 12)] : Dict Box) ∧
      (b, bb) ∈ ([(3, Box.mk 0 0 2 2), (5, Box.mk 10 10 12 12)] : Dict Box) ∧
      minKeypointDistanceT [(0 : ℚ), 0] (get_center_of_bbox ba) ≤
        minKeypointDistanceT [(0 : ℚ), 0] (get_center_of_bbox bb) ∧
      (∀ e ∈ ([(3, Box.mk 0 0 2 2), (5, Box.mk 10 10 12 12)] : Dict Box),
        e.1 ≠ a → e.1 ≠ b →
        minKeypointDistanceT [(0 : ℚ), 0] (get_center_of_bbox ba) ≤
          minKeypointDistanceT [(0 : ℚ), 0] (get_center_of_bbox e.2) ∧
        minKeypointDistanceT [(0 : ℚ), 0] (get_center_of_bbox bb) ≤
          minKeypointDistanceT [(0 : ℚ), 0] (get_center_of_bbox e.2))) :=
  ⟨⟨rfl, by simp⟩,
    (c8_player_selection [(0 : ℚ), 0] [(3, Box.mk 0 0 2 2), (5, Box.mk 10 10 12 12)]
      rfl (by simp)).2⟩

/-- Helper: with the positional binding both call sites use, every call to
get_mini_court_coordinates raises TypeError, since measure_xy_distance
receives the integer anchor index where its second point is expected. -/
theorem invoked_mapper_typeError (mc : MiniCourt) (foot ckp : Point) (n : ℤ)
    (v4 v5 : PyVal) :
    mc.get_mini_court_coordinates (PyVal.pt foot) (PyVal.pt ckp) (PyVal.int n) v4 v5 =
      Except.error PyErr.typeError := rfl

/-- Helper: the per-frame conversion body fails on every input: an absent
ball frame or ball key raises IndexError or KeyError, an empty player dict
makes Python min raise ValueError, and a nonempty player dict reaches either
a failing window lookup or the always-failing mapper call. -/
theorem convertFrame_error (mc : MiniCourt) (pb bb : List (Dict Box)) (kps : List ℚ)
    (fn : ℕ) (d : Dict Box) :
    ∃ e, convertFrame mc pb bb kps fn d = Except.error e := by
  cases h1 : pyGet bb fn with
  | error e =>
    exact ⟨e, by simp only [convertFrame, h1, except_bind_error]⟩
  | ok bf =>
    cases h2 : dictGet bf 1 with
    | error e =>
      exact ⟨e, by simp only [convertFrame, h1, h2, except_bind_ok, except_bind_error]⟩
    | ok bbox =>
      cases d with
      | nil =>
        exact ⟨PyErr.valueError, by
          simp only [convertFrame, h1, h2, except_bind_ok, pyMinBy, except_bind_error]⟩
      | cons e0 es =>
        cases h3 : get_closest_keypoint_index (get_foot_position e0.2) kps [0, 2, 12, 13] with
        | error e3 =>
          exact ⟨e3, by simp only [convertFrame, h1, h2, except_bind_ok, pyMinBy,
            List.foldlM_cons, h3, except_bind_error]⟩
        | ok cki =>
          cases h4 : pyGet kps (cki * 2) with
          | error e4 =>
            exact ⟨e4, by simp only [convertFrame, h1, h2, except_bind_ok, pyMinBy,
              List.foldlM_cons, h3, h4, except_bind_error]⟩
          | ok kx =>
            cases h5 : pyGet kps (cki * 2 + 1) with
            | error e5 =>
              exact ⟨e5, by simp only [convertFrame, h1, h2, except_bind_ok, pyMinBy,
                List.foldlM_cons, h3, h4, h5, except_bind_error]⟩
            | ok ky =>
              cases h6 : localReferenceHeight pb fn e0.1 with
              | error e6 =>
                exact ⟨e6, by simp only [convertFrame, h1, h2, except_bind_ok, pyMinBy,
                  List.foldlM_cons, h3, h4, h5, h6, except_bind_error]⟩
              | ok maxh =>
                cases h7 : dictGet player_heights e0.1 with
                | error e7 =>
                  exact ⟨e7, by simp only [convertFrame, h1, h2, except_bind_ok, pyMinBy,
                    List.foldlM_cons, h3, h4, h5, h6, h7, except_bind_error]⟩
                | ok hm =>
                  exact ⟨PyErr.typeError, by simp only [convertFrame, h1, h2,
                    except_bind_ok, pyMinBy, List.foldlM_cons, h3, h4, h5, h6, h7,
                    invoked_mapper_typeError, except_bind_error]⟩

/-- Helper: on the all-zero keypoint list the anchor search for the foot of
the box (0, 0, 2, 2) settles on candidate index 0 (the first strict minimum
of the vertical distances). -/
theorem cki_eval :
    get_closest_keypoint_index (get_foot_position (Box.mk 0 0 2 2)) exC2Kps [0, 2, 12, 13]
      = Except.ok 0 := by
  have hp : ∀ k : ℕ, k < 28 → pyGet exC2Kps k = Except.ok 0 := by
    intro k hk
    rw [pyGet, exC2Kps, List.getElem?_replicate, if_pos hk]
  simp only [get_closest_keypoint_index, List.foldlM_cons, List.foldlM_nil,
    hp 1 (by omega), hp 5 (by omega), hp 25 (by omega), hp 27 (by omega),
    except_bind_ok, except_pure_eq, get_foot_position]
  have h2top : (2 : WithTop ℚ) < ⊤ := by
    exact_mod_cast WithTop.coe_lt_top ((2 : ℚ))
  norm_num [h2top]

/-- C2 (corrected, amended claim): the mini-court conversion aborts with an
exception on every nonempty frame sequence, so in particular when one of the
two selected players is absent from a later frame: the first processed frame
either fails a lookup (including the KeyError of the calibration-window
lookup when a player is absent within the window) or reaches the
get_mini_court_coordinates call, which always raises TypeError because of
its shifted parameter binding.  Only the empty sequence completes. -/
theorem c2_missing_player_aborts (mc : MiniCourt)
    (player_boxes ball_boxes : List (Dict Box)) (kps : List ℚ)
    (hne : player_boxes ≠ []) :
    ∃ e, convert_bounding_boxes_to_mini_court_coordinates mc player_boxes ball_boxes kps
      = Except.error e := by
  cases player_boxes with
  | nil => exact absurd rfl hne
  | cons d rest =>
    obtain ⟨e, he⟩ := convertFrame_error mc (d :: rest) ball_boxes kps 0 d
    exact ⟨e, by simp only [convert_bounding_boxes_to_mini_court_coordinates,
      convertFrames, he, except_bind_error]⟩

/-- C2 counterexample: on the concrete two-frame sequence in which both
selected players appear in frame 0 and player 2 is absent from frame 1, the
conversion does not absorb the missing entry: it raises TypeError (at the
first get_mini_court_coordinates call) instead of running to completion. -/
theorem c2_counterexample :
    convert_bounding_boxes_to_mini_court_coordinates (MiniCourt.build 1920)
      exC2PlayerBoxes exC2BallBoxes exC2Kps = Except.error PyErr.typeError := by
  have h1 : pyGet exC2BallBoxes 0 = Except.ok [(1, Box.mk 0 0 2 2)] := rfl
  have h2 : dictGet [(1, Box.mk 0 0 2 2)] 1 = Except.ok (Box.mk 0 0 2 2) := rfl
  have h4 : pyGet exC2Kps (0 * 2) = Except.ok 0 := rfl
  have h5 : pyGet exC2Kps (0 * 2 + 1) = Except.ok 0 := rfl
  have h6 : localReferenceHeight exC2PlayerBoxes 0 1 = Except.ok 2 := by
    have hlen : exC2PlayerBoxes.length = 2 := rfl
    rw [localReferenceHeight, hlen]
    norm_num [List.range', List.mapM.loop, pyGet, dictGet,
      exC2PlayerBoxes, get_height_of_bbox, pyListMax]
  have h7 : dictGet player_heights 1 = Except.ok constants.PLAYER_1_HEIGHT_METERS := rfl
  have hpb : exC2PlayerBoxes =
      [[(1, Box.mk 0 0 2 2), (2, Box.mk 10 10 12 14)], [(1, Box.mk 0 0 2 2)]] := rfl
  rw [convert_bounding_boxes_to_mini_court_coordinates]
  rw [show convertFrames (MiniCourt.build 1920) exC2PlayerBoxes exC2BallBoxes exC2Kps 0
        exC2PlayerBoxes
      = convertFrames (MiniCourt.build 1920) exC2PlayerBoxes exC2BallBoxes exC2Kps 0
        [[(1, Box.mk 0 0 2 2), (2, Box.mk 10 10 12 14)], [(1, Box.mk 0 0 2 2)]] from rfl]
  simp only [convertFrames, convertFrame, h1, h2, except_bind_ok, pyMinBy,
    List.foldlM_cons, cki_eval, h4, h5, h6, h7, invoked_mapper_typeError,
    except_bind_error]

/-- C2 witness: the concrete two-frame sequence in which player 2 disappears
after frame 0 is nonempty, so the amended theorem yields an aborting
exception for it. -/
theorem c2_missing_player_aborts_witness :
    exC2PlayerBoxes ≠ [] ∧
    ∃ e, convert_bounding_boxes_to_mini_court_coordinates (MiniCourt.build 1920)
      exC2PlayerBoxes exC2BallBoxes exC2Kps = Except.error e :=
  ⟨by simp [exC2PlayerBoxes],
    c2_missing_player_aborts (MiniCourt.build 1920) exC2PlayerBoxes exC2BallBoxes exC2Kps
      (by simp [exC2PlayerBoxes])⟩

/-- C10 (confirmed): implicit track-id precondition.  First conjunct: with
selected ids 7 and 12 the conversion hits the unguarded player_heights
lookup, which is keyed only by 1 and 2, and aborts with KeyError.  Second
conjunct: the aggregator's opponent formula maps striker 7 to id 2, which is
not one of the selected ids 7 and 12 (misidentification).  Third conjunct:
consequently the stat aggregation itself aborts with KeyError for the id
pair (7, 12), at the opponent position lookup. -/
theorem c10_track_id_precondition :
    (convert_bounding_boxes_to_mini_court_coordinates (MiniCourt.build 1920)
      exC10PlayerBoxes exC10BallBoxes exC2Kps = Except.error PyErr.keyError) ∧
    (opponent_of 7 = 2 ∧ (2 : ℕ) ∉ ([7, 12] : List ℕ)) ∧
    (player_stats_data (MiniCourt.build 1920) [0, 1] exC10PlayerMini exC10BallMini
      = Except.error PyErr.keyError) := by
  refine ⟨?_, ⟨rfl, by decide⟩, ?_⟩
  · have ha1 : pyGet exC10BallBoxes 0 = Except.ok [(1, Box.mk 0 0 2 2)] := rfl
    have ha2 : dictGet [(1, Box.mk 0 0 2 2)] 1 = Except.ok (Box.mk 0 0 2 2) := rfl
    have ha4 : pyGet exC2Kps (0 * 2) = Except.ok 0 := rfl
    have ha5 : pyGet exC2Kps (0 * 2 + 1) = Except.ok 0 := rfl
    have ha6 : localReferenceHeight exC10PlayerBoxes 0 7 = Except.ok 2 := by
      have hlen : exC10PlayerBoxes.length = 1 := rfl
      rw [localReferenceHeight, hlen]
      norm_num [List.range', List.mapM.loop, pyGet, dictGet,
        exC10PlayerBoxes, get_height_of_bbox, pyListMax]
    have ha7 : dictGet player_heights 7 = Except.error PyErr.keyError := rfl
    rw [convert_bounding_boxes_to_mini_court_coordinates]
    rw [show convertFrames (MiniCourt.build 1920) exC10PlayerBoxes exC10BallBoxes exC2Kps 0
          exC10PlayerBoxes
        = convertFrames (MiniCourt.build 1920) exC10PlayerBoxes exC10BallBoxes exC2Kps 0
          [[(7, Box.mk 0 0 2 2), (12, Box.mk 10 10 12 14)]] from rfl]
    simp only [convertFrames, convertFrame, ha1, ha2, except_bind_ok, pyMinBy,
      List.foldlM_cons, cki_eval, ha4, ha5, ha6, ha7, except_bind_error]
  · have hz : measure_distance ((0 : ℚ), (0 : ℚ)) ((0 : ℚ), (0 : ℚ)) = 0 := by
      rw [measure_distance]
      norm_num
    have hd0 : (0 : ℝ) ≤ measure_distance ((0 : ℚ), (10 : ℚ)) ((0 : ℚ), (0 : ℚ)) := by
      rw [measure_distance]
      exact Real.sqrt_nonneg _
    have hneg : ¬ (measure_distance ((0 : ℚ), (10 : ℚ)) ((0 : ℚ), (0 : ℚ)) <
        measure_distance ((0 : ℚ), (0 : ℚ)) ((0 : ℚ), (0 : ℚ))) := by
      rw [hz]
      exact not_lt.mpr hd0
    have hsb : player_shot_ball_id exC10PlayerMini exC10BallMini 0 = Except.ok 7 := by
      have hb1 : pyGet exC10PlayerMini 0 =
          Except.ok [(7, ((0 : ℚ), (0 : ℚ))), (12, ((0 : ℚ), (10 : ℚ)))] := rfl
      have hb2 : pyGet exC10BallMini 0 = Except.ok [(1, ((0 : ℚ), (0 : ℚ)))] := rfl
      have hb3 : dictGet [(1, ((0 : ℚ), (0 : ℚ)))] 1 = Except.ok ((0 : ℚ), (0 : ℚ)) := rfl
      simp only [player_shot_ball_id, hb1, hb2, hb3, except_bind_ok, pyMinBy,
        List.foldl_cons, List.foldl_nil, if_neg hneg, except_pure_eq]
    have hop : opponent_speed (MiniCourt.build 1920) exC10PlayerMini 2 0 1
        = Except.error PyErr.keyError := rfl
    have hbs : ball_shot_speed (MiniCourt.build 1920) exC10BallMini 0 1 =
        Except.ok (convert_pixel_distance_to_meters
          (measure_distance ((0 : ℚ), (0 : ℚ)) ((0 : ℚ), (0 : ℚ)))
          ((constants.DOUBLE_LINE_WIDTH : ℚ) : ℝ)
          (((MiniCourt.build 1920).get_width_of_mini_court : ℚ) : ℝ) /
          ((((1 : ℚ) - (0 : ℚ)) / 24 : ℚ) : ℝ) * 3.6) := rfl
    simp only [player_stats_data, shotPairs, List.zip, List.zipWith, buildStats,
      statStep, hbs, hsb, except_bind_ok, except_bind_error, opponent_of]
    norm_num [hop]

/-- Helper: a successful stats step stamps the start frame, increments exactly
the striker's shot count (so its striker is id 1 or id 2: any other id makes
the step fail on the stats dict keys), adds the interval's ball speed to the
striker's shot-speed total and the interval's opponent speed to the
non-striker's movement-speed total, leaving the other totals unchanged. -/
theorem statStep_ok (mc : MiniCourt) (pm bm : List (Dict Point)) (prev : PlayerStats)
    (s e : ℕ) (cur : PlayerStats)
    (h : statStep mc pm bm prev s e = Except.ok cur) :
    cur.frame_num = s ∧
    ((player_shot_ball_id pm bm s = Except.ok 1 ∧
      cur.player_1_number_of_shots = prev.player_1_number_of_shots + 1 ∧
      cur.player_2_number_of_shots = prev.player_2_number_of_shots ∧
      cur.player_1_total_shot_speed =
        prev.player_1_total_shot_speed + okReal (ball_shot_speed mc bm s e) ∧
      cur.player_2_total_shot_speed = prev.player_2_total_shot_speed ∧
      cur.player_1_total_player_speed = prev.player_1_total_player_speed ∧
      cur.player_2_total_player_speed =
        prev.player_2_total_player_speed + okReal (opponent_speed mc pm 2 s e)) ∨
     (player_shot_ball_id pm bm s = Except.ok 2 ∧
      cur.player_1_number_of_shots = prev.player_1_number_of_shots ∧
      cur.player_2_number_of_shots = prev.player_2_number_of_shots + 1 ∧
      cur.player_1_total_shot_speed = prev.player_1_total_shot_speed ∧
      cur.player_2_total_shot_speed =
        prev.player_2_total_shot_speed + okReal (ball_shot_speed mc bm s e) ∧
      cur.player_1_total_player_speed =
        prev.player_1_total_player_speed + okReal (opponent_speed mc pm 1 s e) ∧
      cur.player_2_total_player_speed = prev.player_2_total_player_speed)) := by
  rw [statStep] at h
  simp only [] at h
  cases hb : ball_shot_speed mc bm s e with
  | error eb => rw [hb] at h; simp at h
  | ok sb =>
    rw [hb, except_bind_ok] at h
    cases hp : player_shot_ball_id pm bm s with
    | error ep => rw [hp] at h; simp at h
    | ok striker =>
      rw [hp, except_bind_ok] at h
      cases ho : opponent_speed mc pm (opponent_of striker) s e with
      | error eo => rw [ho] at h; simp at h
      | ok so =>
        rw [ho, except_bind_ok] at h
        by_cases h1 : striker = 1
        · subst h1
          rw [show opponent_of 1 = 2 from rfl] at h
          rw [if_pos (rfl : (1 : ℕ) = 1), except_bind_ok] at h
          simp only [] at h
          rw [if_neg (by omega : ¬ (2 : ℕ) = 1)] at h
          simp only [except_pure_eq, Except.ok.injEq] at h
          subst h
          rw [show opponent_of 1 = 2 from rfl] at ho
          refine ⟨rfl, Or.inl ⟨rfl, rfl, rfl, rfl, rfl, rfl, ?_⟩⟩
          rw [ho]
          simp [okReal]
        · by_cases h2 : striker = 2
          · subst h2
            rw [show opponent_of 2 = 1 from rfl] at h
            rw [if_neg (by omega : ¬ (2 : ℕ) = 1), if_pos (rfl : (2 : ℕ) = 2),
              except_bind_ok] at h
            simp only [] at h
            rw [if_true] at h
            simp only [except_pure_eq, Except.ok.injEq] at h
            subst h
            rw [show opponent_of 2 = 1 from rfl] at ho
            refine ⟨rfl, Or.inr ⟨rfl, rfl, rfl, rfl, rfl, ?_, rfl⟩⟩
            rw [ho]
            simp [okReal]
          · rw [if_neg h1, if_neg h2] at h
            simp at h

/-- Helper: every snapshot the stats loop emits is stamped with one of the
interval start frames. -/
theorem buildStats_frames (mc : MiniCourt) (pm bm : List (Dict Point)) :
    ∀ (ps : List (ℕ × ℕ)) (prev : PlayerStats) (rows : List PlayerStats),
    buildStats mc pm bm prev ps = Except.ok rows →
    ∀ r ∈ rows, ∃ pr ∈ ps, r.frame_num = pr.1 := by
  intro ps
  induction ps with
  | nil =>
    intro prev rows h r hr
    rw [buildStats] at h
    simp only [Except.ok.injEq] at h
    subst h
    simp at hr
  | cons pr0 rest ih =>
    intro prev rows h r hr
    obtain ⟨s, e⟩ := pr0
    rw [buildStats] at h
    cases hst : statStep mc pm bm prev s e with
    | error e1 => rw [hst] at h; simp at h
    | ok cur =>
      rw [hst, except_bind_ok] at h
      cases hbt : buildStats mc pm bm cur rest with
      | error e2 => rw [hbt] at h; simp at h
      | ok tail =>
        rw [hbt, except_bind_ok] at h
        simp only [except_pure_eq, Except.ok.injEq] at h
        subst h
        rcases List.mem_cons.mp hr with hc | hc
        · subst hc
          exact ⟨(s, e), List.mem_cons_self _ _, (statStep_ok mc pm bm prev s e r hst).1⟩
        · obtain ⟨pr, hpr, hpreq⟩ := ih cur tail hbt r hc
          exact ⟨pr, List.mem_cons_of_mem _ hpr, hpreq⟩

/-- Helper: the merge-ffill row ignores a leading snapshot when the next one
is still within range. -/
theorem tableAt_cons_of_le (x y : PlayerStats) (l : List PlayerStats) (f : ℕ)
    (hy : y.frame_num ≤ f) : tableAt (x :: y :: l) f = tableAt (y :: l) f := by
  rw [tableAt, tableAt]
  by_cases hx : x.frame_num ≤ f
  · rw [List.filter_cons_of_pos (by simpa using hx),
      List.filter_cons_of_pos (by simpa using hy), List.getLast?_cons_cons]
  · rw [List.filter_cons_of_neg (by simpa using hx)]

/-- Helper: the merge-ffill row is the head snapshot when every later one is
beyond the frame. -/
theorem tableAt_cons_of_gt (x : PlayerStats) (l : List PlayerStats) (f : ℕ)
    (hx : x.frame_num ≤ f) (hall : ∀ r ∈ l, f < r.frame_num) :
    tableAt (x :: l) f = x := by
  rw [tableAt]
  rw [List.filter_cons_of_pos (by simpa using hx)]
  rw [show l.filter (fun s => decide (s.frame_num ≤ f)) = [] from
    List.filter_eq_nil_iff.mpr (fun r hr => by simpa using not_le.mpr (hall r hr))]
  rfl

/-- Helper: the interval start frames are the shot list without its last
element. -/
theorem map_fst_shotPairs : ∀ (shots : List ℕ),
    (shotPairs shots).map Prod.fst = shots.take (shots.length - 1)
  | [] => rfl
  | [_] => rfl
  | a :: b :: t => by
    have ih := map_fst_shotPairs (b :: t)
    rw [shotPairs] at ih ⊢
    simp only [List.tail_cons] at ih
    show ((a, b) :: ((b :: t).zip t)).map Prod.fst = (a :: b :: t).take ((a :: b :: t).length - 1)
    rw [List.map_cons, ih]
    simp [List.take]

/-- Helper: the forward-filled table row at frame f carries, for each player,
the base count plus the number of processed intervals with start frame at
most f whose striker is that player. -/
theorem tableAt_counts (mc : MiniCourt) (pm bm : List (Dict Point)) (f : ℕ) :
    ∀ (ps : List (ℕ × ℕ)) (prev : PlayerStats) (rows : List PlayerStats),
    buildStats mc pm bm prev ps = Except.ok rows →
    (ps.map Prod.fst).Pairwise (· < ·) →
    prev.frame_num ≤ f →
    (tableAt (prev :: rows) f).player_1_number_of_shots =
      prev.player_1_number_of_shots + (strikerIntervals pm bm ps f 1).length ∧
    (tableAt (prev :: rows) f).player_2_number_of_shots =
      prev.player_2_number_of_shots + (strikerIntervals pm bm ps f 2).length ∧
    (tableAt (prev :: rows) f).player_1_total_shot_speed =
      prev.player_1_total_shot_speed + ((strikerIntervals pm bm ps f 1).map
        (fun pr => okReal (ball_shot_speed mc bm pr.1 pr.2))).sum ∧
    (tableAt (prev :: rows) f).player_2_total_shot_speed =
      prev.player_2_total_shot_speed + ((strikerIntervals pm bm ps f 2).map
        (fun pr => okReal (ball_shot_speed mc bm pr.1 pr.2))).sum ∧
    (tableAt (prev :: rows) f).player_1_total_player_speed =
      prev.player_1_total_player_speed + ((strikerIntervals pm bm ps f 2).map
        (fun pr => okReal (opponent_speed mc pm 1 pr.1 pr.2))).sum ∧
    (tableAt (prev :: rows) f).player_2_total_player_speed =
      prev.player_2_total_player_speed + ((strikerIntervals pm bm ps f 1).map
        (fun pr => okReal (opponent_speed mc pm 2 pr.1 pr.2))).sum := by
  intro ps
  induction ps with
  | nil =>
    intro prev rows h hpw hprev
    rw [buildStats] at h
    simp only [Except.ok.injEq] at h
    subst h
    rw [tableAt_cons_of_gt prev [] f hprev (by simp)]
    simp [strikerIntervals]
  | cons pr0 rest ih =>
    intro prev rows h hpw hprev
    obtain ⟨s, e⟩ := pr0
    rw [buildStats] at h
    cases hst : statStep mc pm bm prev s e with
    | error e1 => rw [hst] at h; simp at h
    | ok cur =>
      rw [hst, except_bind_ok] at h
      cases hbt : buildStats mc pm bm cur rest with
      | error e2 => rw [hbt] at h; simp at h
      | ok tail =>
        rw [hbt, except_bind_ok] at h
        simp only [except_pure_eq, Except.ok.injEq] at h
        subst h
        obtain ⟨hframe, hcases⟩ := statStep_ok mc pm bm prev s e cur hst
        rw [List.map_cons] at hpw
        obtain ⟨hs_lt, hpw'⟩ := List.pairwise_cons.mp hpw
        by_cases hsf : s ≤ f
        · rw [tableAt_cons_of_le prev cur tail f (by rw [hframe]; exact hsf)]
          obtain ⟨i1, i2, i3, i4, i5, i6⟩ := ih cur tail hbt hpw'
            (by rw [hframe]; exact hsf)
          rcases hcases with ⟨hps, h1, h2, ht1, ht2, hm1, hm2⟩ |
            ⟨hps, h1, h2, ht1, ht2, hm1, hm2⟩
          · have eI1 : strikerIntervals pm bm ((s, e) :: rest) f 1 =
                (s, e) :: strikerIntervals pm bm rest f 1 := by
              simp [strikerIntervals, List.filter_cons, hsf, hps]
            have eI2 : strikerIntervals pm bm ((s, e) :: rest) f 2 =
                strikerIntervals pm bm rest f 2 := by
              simp [strikerIntervals, List.filter_cons, hps]
            refine ⟨?_, ?_, ?_, ?_, ?_, ?_⟩
            · rw [i1, h1, eI1, List.length_cons]
              omega
            · rw [i2, h2, eI2]
            · rw [i3, ht1, eI1]
              simp only [List.map_cons, List.sum_cons]
              ring
            · rw [i4, ht2, eI2]
            · rw [i5, hm1, eI2]
            · rw [i6, hm2, eI1]
              simp only [List.map_cons, List.sum_cons]
              ring
          · have eI1 : strikerIntervals pm bm ((s, e) :: rest) f 1 =
                strikerIntervals pm bm rest f 1 := by
              simp [strikerIntervals, List.filter_cons, hps]
            have eI2 : strikerIntervals pm bm ((s, e) :: rest) f 2 =
                (s, e) :: strikerIntervals pm bm rest f 2 := by
              simp [strikerIntervals, List.filter_cons, hsf, hps]
            refine ⟨?_, ?_, ?_, ?_, ?_, ?_⟩
            · rw [i1, h1, eI1]
            · rw [i2, h2, eI2, List.length_cons]
              omega
            · rw [i3, ht1, eI1]
            · rw [i4, ht2, eI2]
              simp only [List.map_cons, List.sum_cons]
              ring
            · rw [i5, hm1, eI2]
              simp only [List.map_cons, List.sum_cons]
              ring
            · rw [i6, hm2, eI1]
        · have hallgt : ∀ r ∈ cur :: tail, f < r.frame_num := by
            intro r hr
            rcases List.mem_cons.mp hr with hc | hc
            · subst hc
              rw [hframe]
              omega
            · obtain ⟨pr, hpr, hpreq⟩ := buildStats_frames mc pm bm rest cur tail hbt r hc
              rw [hpreq]
              have := hs_lt pr.1 (List.mem_map_of_mem Prod.fst hpr)
              omega
          rw [tableAt_cons_of_gt prev (cur :: tail) f hprev hallgt]
          have hnil : ∀ pid, strikerIntervals pm bm ((s, e) :: rest) f pid = [] := by
            intro pid
            rw [strikerIntervals, List.filter_eq_nil_iff]
            intro pr hpr
            rcases List.mem_cons.mp hpr with hc | hc
            · subst hc
              simp [hsf]
            · have := hs_lt pr.1 (List.mem_map_of_mem Prod.fst hc)
              simp only [decide_eq_true_eq, not_and]
              intro hle
              omega
          refine ⟨?_, ?_, ?_, ?_, ?_, ?_⟩ <;> simp [hnil]

/-- Helper: on a successful run over strictly increasing shot frames, the
forward-filled table row at frame f carries exactly the cumulative interval
counts and the cumulative speed sums of the processed intervals with start
frame at most f, per player. -/
theorem stats_table_fields (mc : MiniCourt) (shots : List ℕ)
    (pm bm : List (Dict Point)) (stats : List PlayerStats) (f : ℕ)
    (hok : player_stats_data mc shots pm bm = Except.ok stats)
    (hmono : shots.Pairwise (· < ·)) :
    (tableAt stats f).player_1_number_of_shots =
      (strikerIntervals pm bm (shotPairs shots) f 1).length ∧
    (tableAt stats f).player_2_number_of_shots =
      (strikerIntervals pm bm (shotPairs shots) f 2).length ∧
    (tableAt stats f).player_1_total_shot_speed =
      ((strikerIntervals pm bm (shotPairs shots) f 1).map
        (fun pr => okReal (ball_shot_speed mc bm pr.1 pr.2))).sum ∧
    (tableAt stats f).player_2_total_shot_speed =
      ((strikerIntervals pm bm (shotPairs shots) f 2).map
        (fun pr => okReal (ball_shot_speed mc bm pr.1 pr.2))).sum ∧
    (tableAt stats f).player_1_total_player_speed =
      ((strikerIntervals pm bm (shotPairs shots) f 2).map
        (fun pr => okReal (opponent_speed mc pm 1 pr.1 pr.2))).sum ∧
    (tableAt stats f).player_2_total_player_speed =
      ((strikerIntervals pm bm (shotPairs shots) f 1).map
        (fun pr => okReal (opponent_speed mc pm 2 pr.1 pr.2))).sum := by
  rw [player_stats_data] at hok
  cases hbs : buildStats mc pm bm initial_player_stats (shotPairs shots) with
  | error er => rw [hbs] at hok; simp at hok
  | ok rows =>
    rw [hbs, except_bind_ok] at hok
    simp only [except_pure_eq, Except.ok.injEq] at hok
    subst hok
    have hpw : ((shotPairs shots).map Prod.fst).Pairwise (· < ·) := by
      rw [map_fst_shotPairs]
      exact List.Pairwise.sublist (List.take_sublist _ _) hmono
    obtain ⟨e1, e2, e3, e4, e5, e6⟩ := tableAt_counts mc pm bm f (shotPairs shots)
      initial_player_stats rows hbs hpw (Nat.zero_le f)
    simp only [initial_player_stats, zero_add] at e1 e2 e3 e4 e5 e6
    exact ⟨e1, e2, e3, e4, e5, e6⟩

/-- C3 (confirmed): per-frame average fields.  On a successful aggregation
over strictly increasing shot frames, at every frame f: whenever the relevant
count is nonzero, each player's average shot speed is that player's
cumulative shot-speed sum over the intervals with start frame at most f in
which that player was the striker, divided by the count of those intervals;
and each player's average movement speed is that player's cumulative
movement-speed sum, accrued over the intervals in which the player was the
non-striker, divided by the count of exactly those non-striker intervals
(which is what the code's division by the other player's shot count
computes). -/
theorem c3_average_fields (mc : MiniCourt) (shots : List ℕ)
    (pm bm : List (Dict Point)) (stats : List PlayerStats) (f : ℕ)
    (hok : player_stats_data mc shots pm bm = Except.ok stats)
    (hmono : shots.Pairwise (· < ·)) :
    ((strikerIntervals pm bm (shotPairs shots) f 1).length ≠ 0 →
      player_1_average_shot_speed stats f = some
        (((strikerIntervals pm bm (shotPairs shots) f 1).map
            (fun pr => okReal (ball_shot_speed mc bm pr.1 pr.2))).sum /
          ((strikerIntervals pm bm (shotPairs shots) f 1).length : ℝ))) ∧
    ((strikerIntervals pm bm (shotPairs shots) f 2).length ≠ 0 →
      player_2_average_shot_speed stats f = some
        (((strikerIntervals pm bm (shotPairs shots) f 2).map
            (fun pr => okReal (ball_shot_speed mc bm pr.1 pr.2))).sum /
          ((strikerIntervals pm bm (shotPairs shots) f 2).length : ℝ))) ∧
    ((strikerIntervals pm bm (shotPairs shots) f 2).length ≠ 0 →
      player_1_average_player_speed stats f = some
        (((strikerIntervals pm bm (shotPairs shots) f 2).map
            (fun pr => okReal (opponent_speed mc pm 1 pr.1 pr.2))).sum /
          ((strikerIntervals pm bm (shotPairs shots) f 2).length : ℝ))) ∧
    ((strikerIntervals pm bm (shotPairs shots) f 1).length ≠ 0 →
      player_2_average_player_speed stats f = some
        (((strikerIntervals pm bm (shotPairs shots) f 1).map
            (fun pr => okReal (opponent_speed mc pm 2 pr.1 pr.2))).sum /
          ((strikerIntervals pm bm (shotPairs shots) f 1).length : ℝ))) := by
  obtain ⟨e1, e2, e3, e4, e5, e6⟩ := stats_table_fields mc shots pm bm stats f hok hmono
  refine ⟨?_, ?_, ?_, ?_⟩
  · intro hne
    rw [player_1_average_shot_speed, pdDivNaN, e1, e3, if_neg hne]
  · intro hne
    rw [player_2_average_shot_speed, pdDivNaN, e2, e4, if_neg hne]
  · intro hne
    rw [player_1_average_player_speed, pdDivNaN, e2, e5, if_neg hne]
  · intro hne
    rw [player_2_average_player_speed, pdDivNaN, e1, e6, if_neg hne]

/-- Helper: in the witness scenario the ball rests at the origin, so the shot
interval's ball speed is 0. -/
theorem exC3_ball_speed :
    ball_shot_speed (MiniCourt.build 1920) exC3BallMini 1 2 = Except.ok 0 := by
  have h1 : pyGet exC3BallMini 1 = Except.ok [(1, ((0 : ℚ), (0 : ℚ)))] := rfl
  have h2 : pyGet exC3BallMini 2 = Except.ok [(1, ((0 : ℚ), (0 : ℚ)))] := rfl
  have hz : measure_distance (0 : Point) (0 : Point) = 0 := by
    rw [measure_distance]
    norm_num
  simp [ball_shot_speed, h1, h2, dictGet, List.find?, hz,
    convert_pixel_distance_to_meters]

/-- Helper: in the witness scenario player 1 sits exactly on the ball, so the
striker of the interval starting at frame 1 is player 1. -/
theorem exC3_striker :
    player_shot_ball_id exC3PlayerMini exC3BallMini 1 = Except.ok 1 := by
  have hz : measure_distance ((0 : ℚ), (0 : ℚ)) ((0 : ℚ), (0 : ℚ)) = 0 := by
    rw [measure_distance]
    norm_num
  have hneg : ¬ (measure_distance ((0 : ℚ), (300 : ℚ)) ((0 : ℚ), (0 : ℚ)) <
      measure_distance ((0 : ℚ), (0 : ℚ)) ((0 : ℚ), (0 : ℚ))) := by
    rw [hz]
    exact not_lt.mpr (by rw [measure_distance]; exact Real.sqrt_nonneg _)
  have hb1 : pyGet exC3PlayerMini 1 =
      Except.ok [(1, ((0 : ℚ), (0 : ℚ))), (2, ((0 : ℚ), (300 : ℚ)))] := rfl
  have hb2 : pyGet exC3BallMini 1 = Except.ok [(1, ((0 : ℚ), (0 : ℚ)))] := rfl
  have hb3 : dictGet [(1, ((0 : ℚ), (0 : ℚ)))] 1 = Except.ok ((0 : ℚ), (0 : ℚ)) := rfl
  simp only [player_shot_ball_id, hb1, hb2, hb3, except_bind_ok, pyMinBy,
    List.foldl_cons, List.foldl_nil, if_neg hneg, except_pure_eq]

/-- Helper: in the witness scenario the non-striker player 2 does not move, so
the opponent movement speed of the interval is 0. -/
theorem exC3_opp_speed :
    opponent_speed (MiniCourt.build 1920) exC3PlayerMini 2 1 2 = Except.ok 0 := by
  have h1 : pyGet exC3PlayerMini 1 =
      Except.ok [(1, ((0 : ℚ), (0 : ℚ))), (2, ((0 : ℚ), (300 : ℚ)))] := rfl
  have h2 : pyGet exC3PlayerMini 2 =
      Except.ok [(1, ((0 : ℚ), (0 : ℚ))), (2, ((0 : ℚ), (300 : ℚ)))] := rfl
  have hz : measure_distance ((0 : ℚ), (300 : ℚ)) ((0 : ℚ), (300 : ℚ)) = 0 := by
    rw [measure_distance]
    norm_num
  simp [opponent_speed, h1, h2, dictGet, List.find?, hz,
    convert_pixel_distance_to_meters]

/-- Helper: the full aggregation over the single shot interval (1, 2) of the
witness scenario succeeds and appends one snapshot crediting player 1 with
one shot of speed 0. -/
theorem exC3_stats :
    player_stats_data (MiniCourt.build 1920) [1, 2] exC3PlayerMini exC3BallMini =
      Except.ok [initial_player_stats,
        { initial_player_stats with frame_num := 1, player_1_number_of_shots := 1 }] := by
  have hstep : statStep (MiniCourt.build 1920) exC3PlayerMini exC3BallMini
      initial_player_stats 1 2 = Except.ok
        { initial_player_stats with frame_num := 1, player_1_number_of_shots := 1 } := by
    rw [statStep]
    simp only [exC3_ball_speed, exC3_striker, except_bind_ok]
    norm_num [opponent_of, exC3_opp_speed, initial_player_stats]
  simp only [player_stats_data, shotPairs, List.zip, List.zipWith, List.tail_cons,
    buildStats, hstep, except_bind_ok, except_pure_eq]

/-- Helper: in the witness scenario the single interval (1, 2) starts at or
before frame 2 with striker 1, so it is the one striker-1 interval. -/
theorem exC3_intervals :
    strikerIntervals exC3PlayerMini exC3BallMini (shotPairs [1, 2]) 2 1 = [(1, 2)] := by
  simp [strikerIntervals, shotPairs, exC3_striker]

/-- C3 witness: on the concrete three-frame scenario with one shot interval
(1, 2) and striker 1, the aggregation succeeds, the striker-1 interval count
at frame 2 is nonzero, and player 1's average shot speed at frame 2 equals
the cumulative shot-speed sum divided by the interval count. -/
theorem c3_average_fields_witness :
    player_stats_data (MiniCourt.build 1920) [1, 2] exC3PlayerMini exC3BallMini =
      Except.ok [initial_player_stats,
        { initial_player_stats with frame_num := 1, player_1_number_of_shots := 1 }] ∧
    (strikerIntervals exC3PlayerMini exC3BallMini (shotPairs [1, 2]) 2 1).length ≠ 0 ∧
    player_1_average_shot_speed [initial_player_stats,
        { initial_player_stats with frame_num := 1, player_1_number_of_shots := 1 }] 2 =
      some (((strikerIntervals exC3PlayerMini exC3BallMini (shotPairs [1, 2]) 2 1).map
          (fun pr => okReal (ball_shot_speed (MiniCourt.build 1920) exC3BallMini
            pr.1 pr.2))).sum /
        ((strikerIntervals exC3PlayerMini exC3BallMini (shotPairs [1, 2]) 2 1).length : ℝ)) := by
  have hne : (strikerIntervals exC3PlayerMini exC3BallMini (shotPairs [1, 2]) 2 1).length
      ≠ 0 := by
    rw [exC3_intervals]
    simp
  exact ⟨exC3_stats, hne,
    (c3_average_fields (MiniCourt.build 1920) [1, 2] exC3PlayerMini exC3BallMini _ 2
      exC3_stats (by decide)).1 hne⟩

/-- C9 (confirmed): average sentinel.  On a successful aggregation over
strictly increasing shot frames, if a player struck no processed interval at
or before frame f, that player's average shot speed at f is the not-available
sentinel (the NaN of the 0/0 float column division, modeled as none); the
Option-valued column is total, so no division error is raised, and the
sentinel is distinct from every numeric value. -/
theorem c9_average_sentinel (mc : MiniCourt) (shots : List ℕ)
    (pm bm : List (Dict Point)) (stats : List PlayerStats) (f : ℕ)
    (hok : player_stats_data mc shots pm bm = Except.ok stats)
    (hmono : shots.Pairwise (· < ·)) :
    ((strikerIntervals pm bm (shotPairs shots) f 1).length = 0 →
      player_1_average_shot_speed stats f = none) ∧
    ((strikerIntervals pm bm (shotPairs shots) f 2).length = 0 →
      player_2_average_shot_speed stats f = none) := by
  obtain ⟨e1, e2, _, _, _, _⟩ := stats_table_fields mc shots pm bm stats f hok hmono
  constructor
  · intro hz
    rw [player_1_average_shot_speed, pdDivNaN, e1, hz, if_pos rfl]
  · intro hz
    rw [player_2_average_shot_speed, pdDivNaN, e2, hz, if_pos rfl]

/-- C9 witness: with no shot frames at all the aggregation yields just the
zeroed baseline snapshot, both interval counts at frame 0 are zero, and both
average shot speeds at frame 0 are the sentinel. -/
theorem c9_average_sentinel_witness :
    player_stats_data (MiniCourt.build 1920) [] exC3PlayerMini exC3BallMini =
      Except.ok [initial_player_stats] ∧
    (strikerIntervals exC3PlayerMini exC3BallMini (shotPairs []) 0 1).length = 0 ∧
    player_1_average_shot_speed [initial_player_stats] 0 = none ∧
    player_2_average_shot_speed [initial_player_stats] 0 = none := by
  have hok : player_stats_data (MiniCourt.build 1920) [] exC3PlayerMini exC3BallMini =
      Except.ok [initial_player_stats] := rfl
  have h := c9_average_sentinel (MiniCourt.build 1920) [] exC3PlayerMini exC3BallMini
    [initial_player_stats] 0 hok List.Pairwise.nil
  exact ⟨hok, rfl, h.1 rfl, h.2 rfl⟩

end TennisAnalysis
